import Mathlib

/-!
# Boost_.cpp : the handle registry and the command dispatcher

A shallow embedding of `src/+cv/private/Boost_.cpp` (the MEX gateway of
`cv::ml::Boost`).  The file keeps two persistent variables, the counter
`last_id` and the map `obj_`, and one entry point, `mexFunction`, that reads a
handle and a method name from its right-hand-side arguments and runs one branch
of a long `if / else if` chain.

What is not in the file is taken as a parameter:

* the wrapped library (`Boost::create`, `train`, `predict`, `load`, ...) is the
  record `Lib`;
* an argument of the host (`MxArray`) is the record of what each of its
  conversions yields, `none` standing for a conversion that raises;
* the helpers of `mexopencv.hpp` (`nargchk`, `UPDATE_FLAG`, `ConstMap`) are
  modelled from the specification.

Pointers are modelled by value.  Every `Ptr<Boost>` stored in `obj_` comes from
`Boost::create()` or from a load, so no two keys share an instance, and a
mutation of the instance through the local copy `obj` of `obj_[id]` is the
rewrite of the entry of `id`.  A request ends normally, with an error (the
`longjmp` of `mexErrMsgIdAndTxt`, or an exception of the library), or by a call
through an empty pointer; the persistent state survives the first two.
-/

namespace Boost_

/-! ## Values that only pass through the dispatcher -/

/-- A C `float`, kept as its bit pattern: the dispatcher never computes with it. -/
structure CFloat where
  bits : Nat
  deriving DecidableEq, Repr

/-- A C `double`, kept as its bit pattern. -/
structure CDouble where
  bits : Nat
  deriving DecidableEq, Repr

/-- A `cv::Mat`, kept as its cells. -/
structure Mat where
  cells : List (List Nat)
  deriving DecidableEq, Repr

/-- A `Ptr<TrainData>` built by the dataset helpers; uninterpreted. -/
structure TrainData where
  tag : Nat
  deriving DecidableEq, Repr

/-- The `vector<MxArray>` handed to the dataset helpers; uninterpreted. -/
abbrev DataOptions := List Nat

/-- The depth argument of `MxArray::toMat`: the default, `CV_32F` or `CV_32S`. -/
inductive Depth
  | dflt
  | CV_32F
  | CV_32S
  deriving DecidableEq, Repr

/-- The errors of the specification's taxonomy (section 7), plus the ones the
helpers raise.  `unknownHandle` is listed by the specification; no line of the
source raises it. -/
inductive Err
  | arity
  | unknownOption (key : String)
  | unknownProperty (prop : String)
  | unknownMethod (method : String)
  | unknownHandle
  | conversion
  | valueNotFound
  | openFailed
  | library (code : Int)
  deriving DecidableEq, Repr

/-- Modelled from the spec: the argument marshalling layer (`MxArray`, declared
in `mexopencv.hpp`, not part of the source file) "converts host-language values
to native numeric/string/matrix types".  An argument is the record of what each
conversion used by `Boost_.cpp` yields on it; `none` is a conversion that
raises. -/
structure MxArray where
  toInt : Option Int
  toBool : Option Bool
  toString : Option String
  toFloat : Option CFloat
  toDouble : Option CDouble
  toMat : Depth → Option Mat
  toVector : DataOptions
  isChar : Bool
  isInt32 : Bool

/-- A value placed in `plhs` by one of the `MxArray(...)` constructors. -/
inductive Value
  | int (n : Int)
  | bool (b : Bool)
  | float (x : CFloat)
  | double (x : CDouble)
  | str (s : String)
  | mat (m : Mat)
  | struct (tag : Nat)
  deriving DecidableEq, Repr

/-! ## The instance, the registry -/

/-- Modelled from the spec: the `cv::ml::Boost` instance (external library),
as a record with one field per property of the closed set of twelve, plus the
trained state `model`, which only the library reads and writes. -/
structure Boost where
  CVFolds : Int
  MaxCategories : Int
  MaxDepth : Int
  MinSampleCount : Int
  Priors : Mat
  RegressionAccuracy : CFloat
  TruncatePrunedTree : Bool
  Use1SERule : Bool
  UseSurrogates : Bool
  BoostType : Int
  WeakCount : Int
  WeightTrimRate : CDouble
  model : Nat
  deriving DecidableEq, Repr

/-- A `Ptr<Boost>`: empty (what `std::map::operator[]` default-constructs) or
owning an instance. -/
inductive Ptr
  | null
  | ref (b : Boost)
  deriving DecidableEq, Repr

/-- The two persistent variables of the file: `int last_id` and
`map<int,Ptr<Boost> > obj_` (a key is present when the function is `some`). -/
structure State where
  last_id : Int
  obj_ : Int → Option Ptr

/-- The state at load time: `last_id = 0` and an empty map. -/
def State.init : State := ⟨0, fun _ => none⟩

/-- The write `obj_[id] = p` (also the view of an in-place mutation of the
instance behind `obj_[id]`). -/
def State.put (s : State) (id : Int) (p : Ptr) : State :=
  ⟨s.last_id, Function.update s.obj_ id (some p)⟩

/-- The call `obj_.erase(id)`. -/
def State.erase (s : State) (id : Int) : State :=
  ⟨s.last_id, Function.update s.obj_ id none⟩

/-- The read `Ptr<Boost> obj = obj_[id]` (line 62): `std::map::operator[]`
returns the stored pointer, and inserts an empty one under an absent key. -/
def State.index (s : State) (id : Int) : Ptr × State :=
  match s.obj_ id with
  | some p => (p, s)
  | none => (Ptr.null, s.put id Ptr.null)

deriving instance DecidableEq for Except

/-- Two's-complement wrap of an `int` (32 bits). -/
def wrap32 (x : Int) : Int := (x + 2 ^ 31) % 2 ^ 32 - 2 ^ 31

/-! ## The helpers of mexopencv.hpp -/

/-- Modelled from the spec: `nargchk` (declared in `mexopencv.hpp`): a wrong
argument count "aborts immediately with a descriptive message". -/
def nargchk (cond : Bool) : Except Err Unit :=
  if cond then Except.ok () else Except.error Err.arity

/-- Modelled from the spec: the macro `UPDATE_FLAG(NUM, TF, BIT)` (declared in
`mexopencv.hpp`), "toggling named bits": `NUM |= BIT` when `TF` holds,
`NUM &= ~BIT` otherwise. -/
def UPDATE_FLAG (num : Int) (tf : Bool) (bit : Int) : Int :=
  if tf then Int.lor num bit else Int.land num (Int.lnot bit)

/-- Modelled from the spec: `ConstMap<K,V>` (declared in `mexopencv.hpp`), a
constant lookup table filled pair by pair. -/
structure ConstMap (K V : Type) where
  entries : List (K × V)

/-- The first pair of a table: `ConstMap<K,V>(key, val)`. -/
def ConstMap.one {K V : Type} (key : K) (val : V) : ConstMap K V := ⟨[(key, val)]⟩

/-- One more pair: `operator()(key, val)`, the assignment `m_[key] = val`. -/
def ConstMap.add {K V : Type} [DecidableEq K] (m : ConstMap K V) (key : K) (val : V) :
    ConstMap K V :=
  ⟨(key, val) :: m.entries.filter (fun e => decide (e.1 ≠ key))⟩

/-- Modelled from the spec: the lookup `operator[]` of `ConstMap`; a key outside
the table raises. -/
def ConstMap.get {K V : Type} [DecidableEq K] (m : ConstMap K V) (key : K) : Except Err V :=
  match m.entries.find? (fun e => decide (e.1 = key)) with
  | some e => Except.ok e.2
  | none => Except.error Err.valueNotFound

/-- Modelled from the spec: the four integer codes 0-3 of the boost types
(`cv::ml::Boost::DISCRETE` ... `GENTLE`, external library). -/
def DISCRETE : Int := 0

/-- Code of `cv::ml::Boost::REAL`. -/
def REAL : Int := 1

/-- Code of `cv::ml::Boost::LOGIT`. -/
def LOGIT : Int := 2

/-- Code of `cv::ml::Boost::GENTLE`. -/
def GENTLE : Int := 3

/-- Option values for Boost types (lines 22-26). -/
def BoostType : ConstMap String Int :=
  (((ConstMap.one "Discrete" DISCRETE).add "Real" REAL).add "Logit" LOGIT).add "Gentle" GENTLE

/-- Option values for inverse boost types (lines 29-33). -/
def InvBoostType : ConstMap Int String :=
  (((ConstMap.one DISCRETE "Discrete").add REAL "Real").add LOGIT "Logit").add GENTLE "Gentle"

/-- Flag bit `StatModel::RAW_OUTPUT` (external library). -/
def RAW_OUTPUT : Int := 1

/-- Flag bit `StatModel::COMPRESSED_INPUT`. -/
def COMPRESSED_INPUT : Int := 2

/-- Flag bit `StatModel::PREPROCESSED_INPUT`. -/
def PREPROCESSED_INPUT : Int := 4

/-- Flag bit `DTrees::PREDICT_SUM`, `1<<8`. -/
def PREDICT_SUM : Int := 256

/-- Flag bit `DTrees::PREDICT_MAX_VOTE`, `2<<8`. -/
def PREDICT_MAX_VOTE : Int := 512

/-! ## The wrapped library -/

/-- The calls `mexFunction` makes on the instance behind a handle. -/
inductive Call
  | clear
  | save (fname : String)
  | getDefaultName
  | write
  | empty
  | getVarCount
  | isClassifier
  | isTrained
  | train (data : TrainData) (flags : Int)
  | calcError (data : TrainData) (test : Bool)
  | predict (samples : Mat) (flags : Int)
  | getNodes
  | getRoots
  | getSplits
  | getSubsets
  | getter (prop : String)
  | setter (prop : String)
  deriving DecidableEq, Repr

/-- The wrapped library and the helpers of `mexopencv_ml.hpp`, as parameters.
A call that can throw returns `Except Int`, the integer being the code of the
`cv::Exception`; `train` also returns the instance as the call leaves it. -/
structure Lib where
  create : Boost
  clear : Boost → Boost
  load : String → String → Except Int Ptr
  loadFromString : String → String → Except Int Ptr
  save : Boost → String → Except Int Unit
  memoryOpened : String → Bool
  getDefaultName : Boost → String
  write : Boost → String → Int → Except Int String
  empty : Boost → Bool
  getVarCount : Boost → Int
  isClassifier : Boost → Bool
  isTrained : Boost → Bool
  loadTrainData : String → DataOptions → Except Int TrainData
  createTrainData : Mat → Mat → DataOptions → Except Int TrainData
  train : Boost → TrainData → Int → Except Int Bool × Boost
  calcError : Boost → TrainData → Bool → Bool → Except Int (CFloat × Mat)
  predict : Boost → Mat → Int → Except Int (Mat × CFloat)
  getNodes : Boost → Value
  getRoots : Boost → Value
  getSplits : Boost → Value
  getSubsets : Boost → Value

/-! ## Outcome of one request -/

/-- How a request ends: normally, with an error raised by `mexErrMsgIdAndTxt`
(or by a library exception), or by calling a method through an empty
`Ptr<Boost>`, which is undefined behaviour. -/
inductive Status
  | ok
  | error (e : Err)
  | nullDeref
  deriving DecidableEq, Repr

/-- What one call of `mexFunction` leaves behind: its status, the outputs
`plhs`, the persistent state, and the calls made on the instance.  After
`nullDeref` the state is the one at the faulting call. -/
structure Outcome where
  status : Status
  plhs : List Value
  state : State
  calls : List Call

/-- The request is aborted by an error. -/
def Outcome.fail (e : Err) (s : State) (calls : List Call) : Outcome :=
  ⟨Status.error e, [], s, calls⟩

/-- A method is called through an empty pointer. -/
def Outcome.crash (s : State) : Outcome :=
  ⟨Status.nullDeref, [], s, []⟩

/-- The request returns. -/
def Outcome.done (plhs : List Value) (s : State) (calls : List Call) : Outcome :=
  ⟨Status.ok, plhs, s, calls⟩

/-- A conversion of an argument: `none` raises. -/
def conv {α : Type} (x : Option α) : Except Err α :=
  match x with
  | some a => Except.ok a
  | none => Except.error Err.conversion

/-- A library call that throws aborts the request. -/
def lift {α : Type} (x : Except Int α) : Except Err α :=
  match x with
  | Except.ok a => Except.ok a
  | Except.error c => Except.error (Err.library c)

/-- The call `obj->m(...)`: through an empty pointer it is undefined behaviour,
otherwise `k` runs on the instance. -/
def Ptr.arrow (obj : Ptr) (s : State) (k : Boost → Outcome) : Outcome :=
  match obj with
  | Ptr.null => Outcome.crash s
  | Ptr.ref b => k b

/-! ## The option loops -/

/-- The shape shared by the four option loops
`for (int i=i0; i<nrhs; i+=2) { string key(rhs[i].toString()); ... }`: the key
is read as a string, `step` runs the `if / else if` chain of the loop body on
the key and the value `rhs[i+1]`, and the first error aborts.  The argument
count has the parity that leaves no key alone (checked by `nargchk` before the
loop). -/
def optLoop {σ : Type} (step : String → MxArray → σ → Except Err σ) :
    List MxArray → σ → Except Err σ
  | k :: v :: rest, st =>
    match conv k.toString with
    | Except.error e => Except.error e
    | Except.ok key =>
      match step key v st with
      | Except.error e => Except.error e
      | Except.ok st1 => optLoop step rest st1
  | _, st => Except.ok st

/-- One turn of the `load` loop (lines 76-83) on the pair `key, v`. -/
def loadOption (key : String) (v : MxArray) (st : String × Bool) : Except Err (String × Bool) :=
  if key = "ObjName" then
    match conv v.toString with
    | Except.error e => Except.error e
    | Except.ok x => Except.ok (x, st.2)
  else if key = "FromString" then
    match conv v.toBool with
    | Except.error e => Except.error e
    | Except.ok x => Except.ok (st.1, x)
  else Except.error (Err.unknownOption key)

/-- The `load` loop `for (int i=3; i<nrhs; i+=2)` over the arguments from
`rhs[3]` on; the state is `(objname, loadFromString)`. -/
def loadOpts : List MxArray → String × Bool → Except Err (String × Bool) :=
  optLoop loadOption

/-- One turn of the `train` loop (lines 132-147): the state is
`(dataOptions, flags)`. -/
def trainOption (key : String) (v : MxArray) (st : DataOptions × Int) :
    Except Err (DataOptions × Int) :=
  if key = "Data" then Except.ok (v.toVector, st.2)
  else if key = "Flags" then
    match conv v.toInt with
    | Except.error e => Except.error e
    | Except.ok n => Except.ok (st.1, n)
  else if key = "RawOutput" then
    match conv v.toBool with
    | Except.error e => Except.error e
    | Except.ok b => Except.ok (st.1, UPDATE_FLAG st.2 b RAW_OUTPUT)
  else if key = "CompressedInput" then
    match conv v.toBool with
    | Except.error e => Except.error e
    | Except.ok b => Except.ok (st.1, UPDATE_FLAG st.2 b COMPRESSED_INPUT)
  else if key = "PredictSum" then
    match conv v.toBool with
    | Except.error e => Except.error e
    | Except.ok b => Except.ok (st.1, UPDATE_FLAG st.2 b PREDICT_SUM)
  else if key = "PredictMaxVote" then
    match conv v.toBool with
    | Except.error e => Except.error e
    | Except.ok b => Except.ok (st.1, UPDATE_FLAG st.2 b PREDICT_MAX_VOTE)
  else Except.error (Err.unknownOption key)

/-- The `train` loop `for (int i=4; i<nrhs; i+=2)` over the arguments from
`rhs[4]` on. -/
def trainOpts : List MxArray → DataOptions × Int → Except Err (DataOptions × Int) :=
  optLoop trainOption

/-- One turn of the `calcError` loop (lines 166-173): the state is
`(dataOptions, test)`. -/
def calcErrorOption (key : String) (v : MxArray) (st : DataOptions × Bool) :
    Except Err (DataOptions × Bool) :=
  if key = "Data" then Except.ok (v.toVector, st.2)
  else if key = "TestError" then
    match conv v.toBool with
    | Except.error e => Except.error e
    | Except.ok b => Except.ok (st.1, b)
  else Except.error (Err.unknownOption key)

/-- The `calcError` loop over the arguments from `rhs[4]` on. -/
def calcErrorOpts : List MxArray → DataOptions × Bool → Except Err (DataOptions × Bool) :=
  optLoop calcErrorOption

/-- One turn of the `predict` loop (lines 194-214) on the flag word. -/
def predictOption (key : String) (v : MxArray) (flags : Int) : Except Err Int :=
  if key = "Flags" then conv v.toInt
  else if key = "RawOutput" then
    match conv v.toBool with
    | Except.error e => Except.error e
    | Except.ok b => Except.ok (UPDATE_FLAG flags b RAW_OUTPUT)
  else if key = "CompressedInput" then
    match conv v.toBool with
    | Except.error e => Except.error e
    | Except.ok b => Except.ok (UPDATE_FLAG flags b COMPRESSED_INPUT)
  else if key = "PreprocessedInput" then
    match conv v.toBool with
    | Except.error e => Except.error e
    | Except.ok b => Except.ok (UPDATE_FLAG flags b PREPROCESSED_INPUT)
  else if key = "PredictAuto" then
    match conv v.toBool with
    | Except.error e => Except.error e
    | Except.ok b =>
      Except.ok (UPDATE_FLAG (UPDATE_FLAG flags (!b) PREDICT_SUM) (!b) PREDICT_MAX_VOTE)
  else if key = "PredictSum" then
    match conv v.toBool with
    | Except.error e => Except.error e
    | Except.ok b => Except.ok (UPDATE_FLAG flags b PREDICT_SUM)
  else if key = "PredictMaxVote" then
    match conv v.toBool with
    | Except.error e => Except.error e
    | Except.ok b => Except.ok (UPDATE_FLAG flags b PREDICT_MAX_VOTE)
  else Except.error (Err.unknownOption key)

/-- The `predict` loop `for (int i=3; i<nrhs; i+=2)` over the arguments from
`rhs[3]` on. -/
def predictOpts : List MxArray → Int → Except Err Int :=
  optLoop predictOption

/-- The dataset of `train` and `calcError` (lines 149-157 and 175-183): loaded
from a named resource when `rhs[2]` is text, built from the two matrices
otherwise. -/
def makeData (lib : Lib) (a2 a3 : MxArray) (dataOptions : DataOptions) : Except Err TrainData :=
  if a2.isChar then
    match conv a2.toString with
    | Except.error e => Except.error e
    | Except.ok fname => lift (lib.loadTrainData fname dataOptions)
  else
    match conv (a2.toMat Depth.CV_32F) with
    | Except.error e => Except.error e
    | Except.ok samples =>
      match conv (a3.toMat (if a3.isInt32 then Depth.CV_32S else Depth.CV_32F)) with
      | Except.error e => Except.error e
      | Except.ok responses => lift (lib.createTrainData samples responses dataOptions)

/-! ## The branches of the operation switch

Each branch receives the state `s` left by the read `obj_[id]` of line 62, the
pointer `obj` it returned, the counts `nlhs` and `nrhs`, and `args`, the
arguments from `rhs[2]` on. -/

/-- Branch `method == "delete"` (lines 63-66). -/
def doDelete (s : State) (id : Int) (nlhs nrhs : Nat) : Outcome :=
  match nargchk (decide (nrhs = 2 ∧ nlhs = 0)) with
  | Except.error e => Outcome.fail e s []
  | Except.ok _ => Outcome.done [] (s.erase id) []

/-- Branch `method == "clear"` (lines 67-70). -/
def doClear (lib : Lib) (s : State) (id : Int) (obj : Ptr) (nlhs nrhs : Nat) : Outcome :=
  match nargchk (decide (nrhs = 2 ∧ nlhs = 0)) with
  | Except.error e => Outcome.fail e s []
  | Except.ok _ =>
    obj.arrow s (fun b => Outcome.done [] (s.put id (Ptr.ref (lib.clear b))) [Call.clear])

/-- Branch `method == "load"` (lines 71-88): the loaded pointer, empty or not,
replaces `obj_[id]`. -/
def doLoad (lib : Lib) (s : State) (id : Int) (nlhs nrhs : Nat) (args : List MxArray) :
    Outcome :=
  match nargchk (decide (nrhs ≥ 3 ∧ nrhs % 2 = 1 ∧ nlhs = 0)) with
  | Except.error e => Outcome.fail e s []
  | Except.ok _ =>
    match args with
    | a2 :: opts =>
      match loadOpts opts ("", false) with
      | Except.error e => Outcome.fail e s []
      | Except.ok (objname, loadFromString) =>
        match conv a2.toString with
        | Except.error e => Outcome.fail e s []
        | Except.ok src =>
          match lift (if loadFromString then lib.loadFromString src objname
                      else lib.load src objname) with
          | Except.error e => Outcome.fail e s []
          | Except.ok p => Outcome.done [] (s.put id p) []
    | [] => Outcome.fail Err.arity s []

/-- Branch `method == "save"` (lines 89-106). -/
def doSave (lib : Lib) (s : State) (obj : Ptr) (nlhs nrhs : Nat) (args : List MxArray) :
    Outcome :=
  match nargchk (decide (nrhs = 3 ∧ nlhs ≤ 1)) with
  | Except.error e => Outcome.fail e s []
  | Except.ok _ =>
    match args with
    | a2 :: _ =>
      match conv a2.toString with
      | Except.error e => Outcome.fail e s []
      | Except.ok fname =>
        if nlhs > 0 then
          if ¬ lib.memoryOpened fname then Outcome.fail Err.openFailed s []
          else
            obj.arrow s (fun b =>
              match lift (lib.write b (lib.getDefaultName b) 3) with
              | Except.error e => Outcome.fail e s [Call.getDefaultName, Call.write]
              | Except.ok text =>
                Outcome.done [Value.str text] s [Call.getDefaultName, Call.write])
        else
          obj.arrow s (fun b =>
            match lift (lib.save b fname) with
            | Except.error e => Outcome.fail e s [Call.save fname]
            | Except.ok _ => Outcome.done [] s [Call.save fname])
    | [] => Outcome.fail Err.arity s []

/-- The five read-only branches `empty`, `getDefaultName`, `getVarCount`,
`isClassifier`, `isTrained` and the four structure readers `getNodes`,
`getRoots`, `getSplits`, `getSubsets` share one shape:
`nargchk(nrhs==2 && nlhs<=1); plhs[0] = MxArray(obj->m());`. -/
def doRead (s : State) (obj : Ptr) (nlhs nrhs : Nat) (c : Call) (m : Boost → Value) : Outcome :=
  match nargchk (decide (nrhs = 2 ∧ nlhs ≤ 1)) with
  | Except.error e => Outcome.fail e s []
  | Except.ok _ => obj.arrow s (fun b => Outcome.done [m b] s [c])

/-- Branch `method == "train"` (lines 127-160). -/
def doTrain (lib : Lib) (s : State) (id : Int) (obj : Ptr) (nlhs nrhs : Nat)
    (args : List MxArray) : Outcome :=
  match nargchk (decide (nrhs ≥ 4 ∧ nrhs % 2 = 0 ∧ nlhs ≤ 1)) with
  | Except.error e => Outcome.fail e s []
  | Except.ok _ =>
    match args with
    | a2 :: a3 :: opts =>
      match trainOpts opts ([], 0) with
      | Except.error e => Outcome.fail e s []
      | Except.ok (dataOptions, flags) =>
        match makeData lib a2 a3 dataOptions with
        | Except.error e => Outcome.fail e s []
        | Except.ok data =>
          obj.arrow s (fun b =>
            match (lib.train b data flags).1 with
            | Except.error c =>
              Outcome.fail (Err.library c) (s.put id (Ptr.ref (lib.train b data flags).2))
                [Call.train data flags]
            | Except.ok r =>
              Outcome.done [Value.bool r] (s.put id (Ptr.ref (lib.train b data flags).2))
                [Call.train data flags])
    | _ => Outcome.fail Err.arity s []

/-- Branch `method == "calcError"` (lines 161-189). -/
def doCalcError (lib : Lib) (s : State) (obj : Ptr) (nlhs nrhs : Nat)
    (args : List MxArray) : Outcome :=
  match nargchk (decide (nrhs ≥ 4 ∧ nrhs % 2 = 0 ∧ nlhs ≤ 2)) with
  | Except.error e => Outcome.fail e s []
  | Except.ok _ =>
    match args with
    | a2 :: a3 :: opts =>
      match calcErrorOpts opts ([], false) with
      | Except.error e => Outcome.fail e s []
      | Except.ok (dataOptions, test) =>
        match makeData lib a2 a3 dataOptions with
        | Except.error e => Outcome.fail e s []
        | Except.ok data =>
          obj.arrow s (fun b =>
            match lift (lib.calcError b data test (decide (nlhs > 1))) with
            | Except.error e => Outcome.fail e s [Call.calcError data test]
            | Except.ok (err, resp) =>
              Outcome.done
                (if nlhs > 1 then [Value.float err, Value.mat resp] else [Value.float err])
                s [Call.calcError data test])
    | _ => Outcome.fail Err.arity s []

/-- Branch `method == "predict"` (lines 190-222). -/
def doPredict (lib : Lib) (s : State) (obj : Ptr) (nlhs nrhs : Nat)
    (args : List MxArray) : Outcome :=
  match nargchk (decide (nrhs ≥ 3 ∧ nrhs % 2 = 1 ∧ nlhs ≤ 2)) with
  | Except.error e => Outcome.fail e s []
  | Except.ok _ =>
    match args with
    | a2 :: opts =>
      match predictOpts opts 0 with
      | Except.error e => Outcome.fail e s []
      | Except.ok flags =>
        match conv (a2.toMat Depth.CV_32F) with
        | Except.error e => Outcome.fail e s []
        | Except.ok samples =>
          obj.arrow s (fun b =>
            match lift (lib.predict b samples flags) with
            | Except.error e => Outcome.fail e s [Call.predict samples flags]
            | Except.ok (results, f) =>
              Outcome.done
                (if nlhs > 1 then [Value.mat results, Value.float f] else [Value.mat results])
                s [Call.predict samples flags])
    | [] => Outcome.fail Err.arity s []

/-- The property chain of `get` (lines 242-268) on the name `prop`. -/
def getProp (s : State) (obj : Ptr) (prop : String) : Outcome :=
  if prop = "CVFolds" then
    obj.arrow s (fun b => Outcome.done [Value.int b.CVFolds] s [Call.getter prop])
  else if prop = "MaxCategories" then
    obj.arrow s (fun b => Outcome.done [Value.int b.MaxCategories] s [Call.getter prop])
  else if prop = "MaxDepth" then
    obj.arrow s (fun b => Outcome.done [Value.int b.MaxDepth] s [Call.getter prop])
  else if prop = "MinSampleCount" then
    obj.arrow s (fun b => Outcome.done [Value.int b.MinSampleCount] s [Call.getter prop])
  else if prop = "Priors" then
    obj.arrow s (fun b => Outcome.done [Value.mat b.Priors] s [Call.getter prop])
  else if prop = "RegressionAccuracy" then
    obj.arrow s (fun b => Outcome.done [Value.float b.RegressionAccuracy] s [Call.getter prop])
  else if prop = "TruncatePrunedTree" then
    obj.arrow s (fun b => Outcome.done [Value.bool b.TruncatePrunedTree] s [Call.getter prop])
  else if prop = "Use1SERule" then
    obj.arrow s (fun b => Outcome.done [Value.bool b.Use1SERule] s [Call.getter prop])
  else if prop = "UseSurrogates" then
    obj.arrow s (fun b => Outcome.done [Value.bool b.UseSurrogates] s [Call.getter prop])
  else if prop = "BoostType" then
    obj.arrow s (fun b =>
      match InvBoostType.get b.BoostType with
      | Except.error e => Outcome.fail e s [Call.getter prop]
      | Except.ok name => Outcome.done [Value.str name] s [Call.getter prop])
  else if prop = "WeakCount" then
    obj.arrow s (fun b => Outcome.done [Value.int b.WeakCount] s [Call.getter prop])
  else if prop = "WeightTrimRate" then
    obj.arrow s (fun b => Outcome.done [Value.double b.WeightTrimRate] s [Call.getter prop])
  else Outcome.fail (Err.unknownProperty prop) s []

/-- Branch `method == "get"` (lines 239-269). -/
def doGet (s : State) (obj : Ptr) (nlhs nrhs : Nat) (args : List MxArray) : Outcome :=
  match nargchk (decide (nrhs = 3 ∧ nlhs ≤ 1)) with
  | Except.error e => Outcome.fail e s []
  | Except.ok _ =>
    match args with
    | a2 :: _ =>
      match conv a2.toString with
      | Except.error e => Outcome.fail e s []
      | Except.ok prop => getProp s obj prop
    | [] => Outcome.fail Err.arity s []

/-- The argument `BoostType[rhs[3].toString()]` of `setBoostType` (line 292):
the string is read, then looked up in the table. -/
def tableArg (m : ConstMap String Int) (a3 : MxArray) : Except Err Int :=
  match conv a3.toString with
  | Except.error e => Except.error e
  | Except.ok name => m.get name

/-- The statement `obj->setX(arg)` of every `set` case: the call goes through
`obj` first, so an empty pointer faults before the argument is looked at; on an
instance the argument `arg` (a conversion of `rhs[3]`) is evaluated, an error
in it aborts the request, and otherwise the setter runs in place. -/
def applySetter {α : Type} (s : State) (id : Int) (obj : Ptr) (prop : String)
    (arg : Except Err α) (f : α → Boost → Boost) : Outcome :=
  obj.arrow s (fun b =>
    match arg with
    | Except.error e => Outcome.fail e s []
    | Except.ok v => Outcome.done [] (s.put id (Ptr.ref (f v b))) [Call.setter prop])

/-- The property chain of `set` (lines 273-299) on the name `prop`, with the
value `rhs[3]`. -/
def setProp (s : State) (id : Int) (obj : Ptr) (prop : String) (a3 : MxArray) : Outcome :=
  if prop = "CVFolds" then
    applySetter s id obj prop (conv a3.toInt) (fun v b => { b with CVFolds := v })
  else if prop = "MaxCategories" then
    applySetter s id obj prop (conv a3.toInt) (fun v b => { b with MaxCategories := v })
  else if prop = "MaxDepth" then
    applySetter s id obj prop (conv a3.toInt) (fun v b => { b with MaxDepth := v })
  else if prop = "MinSampleCount" then
    applySetter s id obj prop (conv a3.toInt) (fun v b => { b with MinSampleCount := v })
  else if prop = "Priors" then
    applySetter s id obj prop (conv (a3.toMat Depth.dflt)) (fun v b => { b with Priors := v })
  else if prop = "RegressionAccuracy" then
    applySetter s id obj prop (conv a3.toFloat) (fun v b => { b with RegressionAccuracy := v })
  else if prop = "TruncatePrunedTree" then
    applySetter s id obj prop (conv a3.toBool) (fun v b => { b with TruncatePrunedTree := v })
  else if prop = "Use1SERule" then
    applySetter s id obj prop (conv a3.toBool) (fun v b => { b with Use1SERule := v })
  else if prop = "UseSurrogates" then
    applySetter s id obj prop (conv a3.toBool) (fun v b => { b with UseSurrogates := v })
  else if prop = "BoostType" then
    applySetter s id obj prop (tableArg BoostType a3) (fun v b => { b with BoostType := v })
  else if prop = "WeakCount" then
    applySetter s id obj prop (conv a3.toInt) (fun v b => { b with WeakCount := v })
  else if prop = "WeightTrimRate" then
    applySetter s id obj prop (conv a3.toDouble) (fun v b => { b with WeightTrimRate := v })
  else Outcome.fail (Err.unknownProperty prop) s []

/-- Branch `method == "set"` (lines 270-300). -/
def doSet (s : State) (id : Int) (obj : Ptr) (nlhs nrhs : Nat) (args : List MxArray) :
    Outcome :=
  match nargchk (decide (nrhs = 4 ∧ nlhs = 0)) with
  | Except.error e => Outcome.fail e s []
  | Except.ok _ =>
    match args with
    | a2 :: a3 :: _ =>
      match conv a2.toString with
      | Except.error e => Outcome.fail e s []
      | Except.ok prop => setProp s id obj prop a3
    | _ => Outcome.fail Err.arity s []

/-- The operation switch of lines 63-303, after the read of line 62. -/
def dispatch (lib : Lib) (s : State) (id : Int) (obj : Ptr) (method : String)
    (nlhs nrhs : Nat) (args : List MxArray) : Outcome :=
  if method = "delete" then doDelete s id nlhs nrhs
  else if method = "clear" then doClear lib s id obj nlhs nrhs
  else if method = "load" then doLoad lib s id nlhs nrhs args
  else if method = "save" then doSave lib s obj nlhs nrhs args
  else if method = "empty" then
    doRead s obj nlhs nrhs Call.empty (fun b => Value.bool (lib.empty b))
  else if method = "getDefaultName" then
    doRead s obj nlhs nrhs Call.getDefaultName (fun b => Value.str (lib.getDefaultName b))
  else if method = "getVarCount" then
    doRead s obj nlhs nrhs Call.getVarCount (fun b => Value.int (lib.getVarCount b))
  else if method = "isClassifier" then
    doRead s obj nlhs nrhs Call.isClassifier (fun b => Value.bool (lib.isClassifier b))
  else if method = "isTrained" then
    doRead s obj nlhs nrhs Call.isTrained (fun b => Value.bool (lib.isTrained b))
  else if method = "train" then doTrain lib s id obj nlhs nrhs args
  else if method = "calcError" then doCalcError lib s obj nlhs nrhs args
  else if method = "predict" then doPredict lib s obj nlhs nrhs args
  else if method = "getNodes" then doRead s obj nlhs nrhs Call.getNodes lib.getNodes
  else if method = "getRoots" then doRead s obj nlhs nrhs Call.getRoots lib.getRoots
  else if method = "getSplits" then doRead s obj nlhs nrhs Call.getSplits lib.getSplits
  else if method = "getSubsets" then doRead s obj nlhs nrhs Call.getSubsets lib.getSubsets
  else if method = "get" then doGet s obj nlhs nrhs args
  else if method = "set" then doSet s id obj nlhs nrhs args
  else Outcome.fail (Err.unknownMethod method) s []

/-- Branch `method == "new"` (lines 54-59): `obj_[++last_id] = Boost::create()`,
the new `last_id` is returned. -/
def doNew (lib : Lib) (s : State) (nlhs nrhs : Nat) : Outcome :=
  match nargchk (decide (nrhs = 2 ∧ nlhs ≤ 1)) with
  | Except.error e => Outcome.fail e s []
  | Except.ok _ =>
    Outcome.done [Value.int (wrap32 (s.last_id + 1))]
      ⟨wrap32 (s.last_id + 1),
        Function.update s.obj_ (wrap32 (s.last_id + 1)) (some (Ptr.ref lib.create))⟩ []

/-- The entry point `mexFunction(nlhs, plhs, nrhs, prhs)` (lines 43-304), run
on the persistent state `s`; `nrhs` is the length of `rhs`. -/
def mexFunction (lib : Lib) (s : State) (nlhs : Nat) (rhs : List MxArray) : Outcome :=
  match nargchk (decide (rhs.length ≥ 2 ∧ nlhs ≤ 2)) with
  | Except.error e => Outcome.fail e s []
  | Except.ok _ =>
    match rhs with
    | a0 :: a1 :: args =>
      match conv a0.toInt with
      | Except.error e => Outcome.fail e s []
      | Except.ok id =>
        match conv a1.toString with
        | Except.error e => Outcome.fail e s []
        | Except.ok method =>
          if method = "new" then doNew lib s nlhs rhs.length
          else dispatch lib (s.index id).2 id (s.index id).1 method nlhs rhs.length args
    | _ => Outcome.fail Err.arity s []

/-! ## Sequences of requests -/

/-- One call of the gateway: the number of outputs asked for and the
arguments. -/
structure Request where
  nlhs : Nat
  rhs : List MxArray

/-- The request names the method `new` (its `rhs[1]` reads as that string). -/
def Request.isNew (r : Request) : Bool :=
  match r.rhs with
  | _ :: a1 :: _ => decide (a1.toString = some "new")
  | _ => false

/-- The requests of a list served one after the other on the persistent state,
each paired with its outcome.  A call through an empty pointer ends the
process, and the run with it. -/
def run (lib : Lib) : State → List Request → List (Request × Outcome)
  | _, [] => []
  | s, r :: rs =>
    (r, mexFunction lib s r.nlhs r.rhs) ::
      (if (mexFunction lib s r.nlhs r.rhs).status = Status.nullDeref then []
       else run lib (mexFunction lib s r.nlhs r.rhs).state rs)

/-- The outcomes of the `new` requests of a run that returned normally, in
order. -/
def successfulNews (lib : Lib) (s : State) (reqs : List Request) : List Outcome :=
  ((run lib s reqs).filter (fun p => p.1.isNew && decide (p.2.status = Status.ok))).map
    (fun p => p.2)

/-- The handle an outcome returns, when its only output is an integer. -/
def handleOf (o : Outcome) : Option Int :=
  match o.plhs with
  | [Value.int h] => some h
  | _ => none

/-- The handles returned by the successful `new` requests of a run. -/
def newHandles (lib : Lib) (s : State) (reqs : List Request) : List Int :=
  (successfulNews lib s reqs).filterMap handleOf

/-- The states a run can reach from `s`, with the requests that lead there. -/
def finalState (lib : Lib) : State → List Request → State
  | s, [] => s
  | s, r :: rs => finalState lib (mexFunction lib s r.nlhs r.rhs).state rs

/-- Frame of a request on handle `id`: the counter and every entry other than
the one of `id` are the same in `s` and `t`. -/
def Frame (id : Int) (s t : State) : Prop :=
  t.last_id = s.last_id ∧ ∀ h : Int, h ≠ id → t.obj_ h = s.obj_ h

/-! ## The flag word, in the words of the specification -/

/-- An option of `train` or `predict` as the specification reads it: `Flags`
with its integer, a boolean option with its name and value, or an option that
does not concern the flag word (`Data`). -/
inductive FlagOpt
  | flags (n : Int)
  | toggle (key : String) (b : Bool)
  | other
  deriving DecidableEq, Repr

/-- The bit positions a boolean option owns. -/
def ownBits (key : String) : List Nat :=
  if key = "RawOutput" then [0]
  else if key = "CompressedInput" then [1]
  else if key = "PreprocessedInput" then [2]
  else if key = "PredictSum" then [8]
  else if key = "PredictMaxVote" then [9]
  else if key = "PredictAuto" then [8, 9]
  else []

/-- The value a boolean option writes into its bits: the boolean it carries,
negated for `PredictAuto`. -/
def written (key : String) (b : Bool) : Bool :=
  if key = "PredictAuto" then !b else b

/-- One step of the left-to-right fold on the flag word. -/
def FlagOpt.apply (w : Int) : FlagOpt → Int
  | FlagOpt.flags n => n
  | FlagOpt.toggle key b =>
    (ownBits key).foldl (fun acc i => UPDATE_FLAG acc (written key b) (2 ^ i)) w
  | FlagOpt.other => w

/-- The flag word of an option list: the left-to-right fold from 0. -/
def foldFlags (opts : List FlagOpt) : Int := opts.foldl FlagOpt.apply 0

/-- What an option decides about bit `i`: nothing when it does not touch the
bit, the value of the bit otherwise. -/
def FlagOpt.decides (i : Nat) : FlagOpt → Option Bool
  | FlagOpt.flags n => some (n.testBit i)
  | FlagOpt.toggle key b => if i ∈ ownBits key then some (written key b) else none
  | FlagOpt.other => none

/-- The decision of the last option of the list that touches bit `i`. -/
def lastDecision (i : Nat) : List FlagOpt → Option Bool
  | [] => none
  | o :: rest =>
    match lastDecision i rest with
    | some b => some b
    | none => o.decides i

/-- The reading of one `predict` option pair. -/
def readPredict (key : String) (v : MxArray) : Option FlagOpt :=
  if key = "Flags" then v.toInt.map FlagOpt.flags
  else if key ∈ ["RawOutput", "CompressedInput", "PreprocessedInput", "PredictAuto",
      "PredictSum", "PredictMaxVote"] then v.toBool.map (FlagOpt.toggle key)
  else none

/-- The reading of one `train` option pair. -/
def readTrain (key : String) (v : MxArray) : Option FlagOpt :=
  if key = "Data" then some FlagOpt.other
  else if key = "Flags" then v.toInt.map FlagOpt.flags
  else if key ∈ ["RawOutput", "CompressedInput", "PredictSum", "PredictMaxVote"] then
    v.toBool.map (FlagOpt.toggle key)
  else none

/-- The reading of a whole option list, pair by pair. -/
def readOpts (read : String → MxArray → Option FlagOpt) : List MxArray → Option (List FlagOpt)
  | k :: v :: rest =>
    match k.toString with
    | none => none
    | some key =>
      match read key v with
      | none => none
      | some o =>
        match readOpts read rest with
        | none => none
        | some os => some (o :: os)
  | _ => some []

/-- The option names the `train` loop recognises. -/
def trainNames : List String :=
  ["Data", "Flags", "RawOutput", "CompressedInput", "PredictSum", "PredictMaxVote"]

/-- The option names the `predict` loop recognises. -/
def predictNames : List String :=
  ["Flags", "RawOutput", "CompressedInput", "PreprocessedInput", "PredictAuto", "PredictSum",
   "PredictMaxVote"]

/-! ## The property table, in the words of the specification -/

/-- The closed set of twelve property names. -/
def propNames : List String :=
  ["CVFolds", "MaxCategories", "MaxDepth", "MinSampleCount", "Priors", "RegressionAccuracy",
   "TruncatePrunedTree", "Use1SERule", "UseSurrogates", "BoostType", "WeakCount",
   "WeightTrimRate"]

/-- The four boost type strings. -/
def boostNames : List String := ["Discrete", "Real", "Logit", "Gentle"]

/-- The value of the type of property `prop` that the argument `a` carries, as
the host sees it: an integer for the five counts, a matrix for `Priors`, a
float, a double, a boolean for the three switches, one of the four strings for
`BoostType`. -/
def propValue (prop : String) (a : MxArray) : Option Value :=
  if prop ∈ ["CVFolds", "MaxCategories", "MaxDepth", "MinSampleCount", "WeakCount"] then
    a.toInt.map Value.int
  else if prop = "Priors" then (a.toMat Depth.dflt).map Value.mat
  else if prop = "RegressionAccuracy" then a.toFloat.map Value.float
  else if prop ∈ ["TruncatePrunedTree", "Use1SERule", "UseSurrogates"] then
    a.toBool.map Value.bool
  else if prop = "BoostType" then
    a.toString.bind (fun name => if name ∈ boostNames then some (Value.str name) else none)
  else if prop = "WeightTrimRate" then a.toDouble.map Value.double
  else none

/-! ## Sample inputs -/

/-- An argument on which every conversion raises. -/
def MxArray.blank : MxArray :=
  ⟨none, none, none, none, none, fun _ => none, [], false, false⟩

/-- A host integer scalar. -/
def mxInt (n : Int) : MxArray :=
  ⟨some n, some (decide (n ≠ 0)), none, none, none, fun _ => none, [], false, true⟩

/-- A host string of several characters: only `toString` reads it. -/
def mxStr (t : String) : MxArray :=
  ⟨none, none, some t, none, none, fun _ => none, [], true, false⟩

/-- A host logical scalar. -/
def mxBool (b : Bool) : MxArray :=
  ⟨some (if b then 1 else 0), some b, none, none, none, fun _ => none, [], false, false⟩

/-- A host numeric matrix. -/
def mxMat (m : Mat) : MxArray :=
  ⟨none, none, none, none, none, fun _ => some m, [], false, false⟩

/-- A default-constructed instance for the sample library. -/
def sampleBoost : Boost :=
  ⟨0, 10, 1, 10, ⟨[]⟩, ⟨0⟩, true, true, false, 1, 100, ⟨0⟩, 0⟩

/-- A sample library: every call succeeds, `train` bumps the trained state. -/
def sampleLib : Lib :=
  ⟨sampleBoost,
   fun b => { b with model := 0 },
   fun _ _ => Except.ok (Ptr.ref sampleBoost),
   fun _ _ => Except.ok (Ptr.ref sampleBoost),
   fun _ _ => Except.ok (),
   fun _ => true,
   fun _ => "opencv_ml_boost",
   fun _ name _ => Except.ok name,
   fun b => decide (b.model = 0),
   fun _ => 0,
   fun _ => true,
   fun b => decide (b.model ≠ 0),
   fun _ _ => Except.ok ⟨0⟩,
   fun _ _ _ => Except.ok ⟨1⟩,
   fun b _ _ => (Except.ok true, { b with model := b.model + 1 }),
   fun _ _ _ _ => Except.ok (⟨0⟩, ⟨[]⟩),
   fun _ m _ => Except.ok (m, ⟨0⟩),
   fun _ => Value.struct 0,
   fun _ => Value.struct 1,
   fun _ => Value.struct 2,
   fun _ => Value.struct 3⟩

/-- The state after one `new` from the initial state: handle 1 is live. -/
def oneLive : State :=
  ⟨1, Function.update State.init.obj_ 1 (some (Ptr.ref sampleBoost))⟩

/-- The state after two `new`: handles 1 and 2 are live. -/
def twoLive : State :=
  ⟨2, Function.update oneLive.obj_ 2 (some (Ptr.ref sampleBoost))⟩

/-- A sample run: two deletions of the first handle between four `new`
requests, one of them with a wrong argument count. -/
def sampleRun : List Request :=
  [⟨1, [mxInt 0, mxStr "new"]⟩, ⟨0, [mxInt 1, mxStr "delete"]⟩, ⟨0, [mxInt 1, mxStr "delete"]⟩,
   ⟨1, [mxInt 0, mxStr "new"]⟩, ⟨1, [mxInt 0, mxStr "new", mxInt 1]⟩, ⟨0, [mxInt 0, mxStr "new"]⟩]

/-! ## The helpers -/

/-- The only error of `nargchk` is the arity error. -/
theorem nargchk_error {c : Bool} {e : Err} (h : nargchk c = Except.error e) : e = Err.arity := by
  unfold nargchk at h
  split at h
  · cases h
  · cases h; rfl

/-- A check that passes had a true condition. -/
theorem nargchk_ok {c : Bool} {u : Unit} (h : nargchk c = Except.ok u) : c = true := by
  unfold nargchk at h
  split at h
  · assumption
  · cases h

/-- A check on a true condition passes. -/
theorem nargchk_true : nargchk true = Except.ok () := rfl

/-- The only error of a conversion is the conversion error. -/
theorem conv_error {α : Type} {x : Option α} {e : Err} (h : conv x = Except.error e) :
    e = Err.conversion := by
  cases x with
  | none => cases h; rfl
  | some a => cases h

/-- A conversion that succeeds read the value. -/
theorem conv_ok {α : Type} {x : Option α} {a : α} (h : conv x = Except.ok a) : x = some a := by
  cases x with
  | none => cases h
  | some b => cases h; rfl

/-- The only errors of a library call are library errors. -/
theorem lift_error {α : Type} {x : Except Int α} {e : Err} (h : lift x = Except.error e) :
    ∃ c, e = Err.library c := by
  cases x with
  | error c => cases h; exact ⟨c, rfl⟩
  | ok a => cases h

/-- The only error of a table lookup is the missing-value error. -/
theorem ConstMap.get_error {K V : Type} [DecidableEq K] {m : ConstMap K V} {key : K} {e : Err}
    (h : m.get key = Except.error e) : e = Err.valueNotFound := by
  unfold ConstMap.get at h
  split at h
  · cases h
  · cases h; rfl

/-! ## Case analysis of the switch and of the property chains -/

/-- A property of every branch of the operation switch holds of the switch. -/
theorem dispatch_cases (P : Outcome → Prop) (lib : Lib) (s : State) (id : Int) (obj : Ptr)
    (method : String) (nlhs nrhs : Nat) (args : List MxArray)
    (hDelete : method = "delete" → P (doDelete s id nlhs nrhs))
    (hClear : P (doClear lib s id obj nlhs nrhs))
    (hLoad : method = "load" → P (doLoad lib s id nlhs nrhs args))
    (hSave : P (doSave lib s obj nlhs nrhs args))
    (hRead : ∀ c m, c ∈ [Call.empty, Call.getDefaultName, Call.getVarCount, Call.isClassifier,
      Call.isTrained, Call.getNodes, Call.getRoots, Call.getSplits, Call.getSubsets] →
      P (doRead s obj nlhs nrhs c m))
    (hTrain : P (doTrain lib s id obj nlhs nrhs args))
    (hCalc : P (doCalcError lib s obj nlhs nrhs args))
    (hPredict : P (doPredict lib s obj nlhs nrhs args))
    (hGet : P (doGet s obj nlhs nrhs args))
    (hSet : P (doSet s id obj nlhs nrhs args))
    (hElse : P (Outcome.fail (Err.unknownMethod method) s [])) :
    P (dispatch lib s id obj method nlhs nrhs args) := by
  unfold dispatch
  by_cases h0 : method = "delete"
  · rw [if_pos h0]; exact hDelete h0
  rw [if_neg h0]
  by_cases h1 : method = "clear"
  · rw [if_pos h1]; exact hClear
  rw [if_neg h1]
  by_cases h2 : method = "load"
  · rw [if_pos h2]; exact hLoad h2
  rw [if_neg h2]
  by_cases h3 : method = "save"
  · rw [if_pos h3]; exact hSave
  rw [if_neg h3]
  by_cases h4 : method = "empty"
  · rw [if_pos h4]; exact hRead _ _ (by decide)
  rw [if_neg h4]
  by_cases h5 : method = "getDefaultName"
  · rw [if_pos h5]; exact hRead _ _ (by decide)
  rw [if_neg h5]
  by_cases h6 : method = "getVarCount"
  · rw [if_pos h6]; exact hRead _ _ (by decide)
  rw [if_neg h6]
  by_cases h7 : method = "isClassifier"
  · rw [if_pos h7]; exact hRead _ _ (by decide)
  rw [if_neg h7]
  by_cases h8 : method = "isTrained"
  · rw [if_pos h8]; exact hRead _ _ (by decide)
  rw [if_neg h8]
  by_cases h9 : method = "train"
  · rw [if_pos h9]; exact hTrain
  rw [if_neg h9]
  by_cases h10 : method = "calcError"
  · rw [if_pos h10]; exact hCalc
  rw [if_neg h10]
  by_cases h11 : method = "predict"
  · rw [if_pos h11]; exact hPredict
  rw [if_neg h11]
  by_cases h12 : method = "getNodes"
  · rw [if_pos h12]; exact hRead _ _ (by decide)
  rw [if_neg h12]
  by_cases h13 : method = "getRoots"
  · rw [if_pos h13]; exact hRead _ _ (by decide)
  rw [if_neg h13]
  by_cases h14 : method = "getSplits"
  · rw [if_pos h14]; exact hRead _ _ (by decide)
  rw [if_neg h14]
  by_cases h15 : method = "getSubsets"
  · rw [if_pos h15]; exact hRead _ _ (by decide)
  rw [if_neg h15]
  by_cases h16 : method = "get"
  · rw [if_pos h16]; exact hGet
  rw [if_neg h16]
  by_cases h17 : method = "set"
  · rw [if_pos h17]; exact hSet
  rw [if_neg h17]
  exact hElse

/-- The `get` chain either calls one getter through the pointer (the call
leaves the state alone and ends normally or on a missing table value) or raises
the unrecognised-property error. -/
theorem getProp_cases (P : Outcome → Prop) (s : State) (obj : Ptr) (prop : String)
    (hArrow : ∀ k : Boost → Outcome,
      (∀ b, (k b).state = s ∧ (k b).calls = [Call.getter prop] ∧
        ((k b).status = Status.ok ∨ (k b).status = Status.error Err.valueNotFound)) →
      P (obj.arrow s k))
    (hElse : prop ∉ propNames → P (Outcome.fail (Err.unknownProperty prop) s [])) :
    P (getProp s obj prop) := by
  unfold getProp
  by_cases h0 : prop = "CVFolds"
  · rw [if_pos h0]; exact hArrow _ (fun _ => ⟨rfl, rfl, Or.inl rfl⟩)
  rw [if_neg h0]
  by_cases h1 : prop = "MaxCategories"
  · rw [if_pos h1]; exact hArrow _ (fun _ => ⟨rfl, rfl, Or.inl rfl⟩)
  rw [if_neg h1]
  by_cases h2 : prop = "MaxDepth"
  · rw [if_pos h2]; exact hArrow _ (fun _ => ⟨rfl, rfl, Or.inl rfl⟩)
  rw [if_neg h2]
  by_cases h3 : prop = "MinSampleCount"
  · rw [if_pos h3]; exact hArrow _ (fun _ => ⟨rfl, rfl, Or.inl rfl⟩)
  rw [if_neg h3]
  by_cases h4 : prop = "Priors"
  · rw [if_pos h4]; exact hArrow _ (fun _ => ⟨rfl, rfl, Or.inl rfl⟩)
  rw [if_neg h4]
  by_cases h5 : prop = "RegressionAccuracy"
  · rw [if_pos h5]; exact hArrow _ (fun _ => ⟨rfl, rfl, Or.inl rfl⟩)
  rw [if_neg h5]
  by_cases h6 : prop = "TruncatePrunedTree"
  · rw [if_pos h6]; exact hArrow _ (fun _ => ⟨rfl, rfl, Or.inl rfl⟩)
  rw [if_neg h6]
  by_cases h7 : prop = "Use1SERule"
  · rw [if_pos h7]; exact hArrow _ (fun _ => ⟨rfl, rfl, Or.inl rfl⟩)
  rw [if_neg h7]
  by_cases h8 : prop = "UseSurrogates"
  · rw [if_pos h8]; exact hArrow _ (fun _ => ⟨rfl, rfl, Or.inl rfl⟩)
  rw [if_neg h8]
  by_cases h9 : prop = "BoostType"
  · rw [if_pos h9]
    refine hArrow _ (fun b => ?_)
    cases hget : InvBoostType.get b.BoostType with
    | error e =>
      have he : e = Err.valueNotFound := ConstMap.get_error hget
      subst he
      exact ⟨rfl, rfl, Or.inr rfl⟩
    | ok name => exact ⟨rfl, rfl, Or.inl rfl⟩
  rw [if_neg h9]
  by_cases h10 : prop = "WeakCount"
  · rw [if_pos h10]; exact hArrow _ (fun _ => ⟨rfl, rfl, Or.inl rfl⟩)
  rw [if_neg h10]
  by_cases h11 : prop = "WeightTrimRate"
  · rw [if_pos h11]; exact hArrow _ (fun _ => ⟨rfl, rfl, Or.inl rfl⟩)
  rw [if_neg h11]
  exact hElse (by
    simp only [propNames, List.mem_cons, List.mem_singleton, List.not_mem_nil, or_false, not_or]
    exact ⟨h0, h1, h2, h3, h4, h5, h6, h7, h8, h9, h10, h11⟩)

/-- The argument of `setBoostType` fails on the conversion or on the lookup. -/
theorem tableArg_error {m : ConstMap String Int} {a3 : MxArray} {e : Err}
    (h : tableArg m a3 = Except.error e) : e = Err.conversion ∨ e = Err.valueNotFound := by
  unfold tableArg at h
  cases hc : conv a3.toString with
  | error e1 =>
    rw [hc] at h
    cases h
    exact Or.inl (conv_error hc)
  | ok name =>
    rw [hc] at h
    exact Or.inr (ConstMap.get_error h)

/-- The `set` chain either runs one setter statement, whose argument can only
fail on a conversion or on a missing table value, or raises the
unrecognised-property error. -/
theorem setProp_cases (P : Outcome → Prop) (s : State) (id : Int) (obj : Ptr) (prop : String)
    (a3 : MxArray)
    (hSetter : ∀ (α : Type) (arg : Except Err α) (f : α → Boost → Boost),
      (∀ e, arg = Except.error e → e = Err.conversion ∨ e = Err.valueNotFound) →
      P (applySetter s id obj prop arg f))
    (hElse : prop ∉ propNames → P (Outcome.fail (Err.unknownProperty prop) s [])) :
    P (setProp s id obj prop a3) := by
  unfold setProp
  by_cases h0 : prop = "CVFolds"
  · rw [if_pos h0]; exact hSetter _ _ _ (fun e he => Or.inl (conv_error he))
  rw [if_neg h0]
  by_cases h1 : prop = "MaxCategories"
  · rw [if_pos h1]; exact hSetter _ _ _ (fun e he => Or.inl (conv_error he))
  rw [if_neg h1]
  by_cases h2 : prop = "MaxDepth"
  · rw [if_pos h2]; exact hSetter _ _ _ (fun e he => Or.inl (conv_error he))
  rw [if_neg h2]
  by_cases h3 : prop = "MinSampleCount"
  · rw [if_pos h3]; exact hSetter _ _ _ (fun e he => Or.inl (conv_error he))
  rw [if_neg h3]
  by_cases h4 : prop = "Priors"
  · rw [if_pos h4]; exact hSetter _ _ _ (fun e he => Or.inl (conv_error he))
  rw [if_neg h4]
  by_cases h5 : prop = "RegressionAccuracy"
  · rw [if_pos h5]; exact hSetter _ _ _ (fun e he => Or.inl (conv_error he))
  rw [if_neg h5]
  by_cases h6 : prop = "TruncatePrunedTree"
  · rw [if_pos h6]; exact hSetter _ _ _ (fun e he => Or.inl (conv_error he))
  rw [if_neg h6]
  by_cases h7 : prop = "Use1SERule"
  · rw [if_pos h7]; exact hSetter _ _ _ (fun e he => Or.inl (conv_error he))
  rw [if_neg h7]
  by_cases h8 : prop = "UseSurrogates"
  · rw [if_pos h8]; exact hSetter _ _ _ (fun e he => Or.inl (conv_error he))
  rw [if_neg h8]
  by_cases h9 : prop = "BoostType"
  · rw [if_pos h9]; exact hSetter _ _ _ (fun e he => tableArg_error he)
  rw [if_neg h9]
  by_cases h10 : prop = "WeakCount"
  · rw [if_pos h10]; exact hSetter _ _ _ (fun e he => Or.inl (conv_error he))
  rw [if_neg h10]
  by_cases h11 : prop = "WeightTrimRate"
  · rw [if_pos h11]; exact hSetter _ _ _ (fun e he => Or.inl (conv_error he))
  rw [if_neg h11]
  exact hElse (by
    simp only [propNames, List.mem_cons, List.mem_singleton, List.not_mem_nil, or_false, not_or]
    exact ⟨h0, h1, h2, h3, h4, h5, h6, h7, h8, h9, h10, h11⟩)

/-! ## The frame of a request -/

theorem Frame.same (id : Int) (s : State) : Frame id s s := ⟨rfl, fun _ _ => rfl⟩

theorem Frame.put (id : Int) (s : State) (p : Ptr) : Frame id s (s.put id p) := by
  refine ⟨rfl, fun h hne => ?_⟩
  simp [State.put, Function.update, hne]

theorem Frame.erase (id : Int) (s : State) : Frame id s (s.erase id) := by
  refine ⟨rfl, fun h hne => ?_⟩
  simp [State.erase, Function.update, hne]

theorem Frame.trans {id : Int} {s t u : State} (h1 : Frame id s t) (h2 : Frame id t u) :
    Frame id s u :=
  ⟨h2.1.trans h1.1, fun h hne => (h2.2 h hne).trans (h1.2 h hne)⟩

/-- The read of line 62 touches the entry of `id` only. -/
theorem Frame.index (id : Int) (s : State) : Frame id s (s.index id).2 := by
  unfold State.index
  cases s.obj_ id with
  | none => exact Frame.put id s Ptr.null
  | some p => exact Frame.same id s

theorem frame_arrow (id : Int) (s : State) (obj : Ptr) (k : Boost → Outcome)
    (h : ∀ b, Frame id s (k b).state) : Frame id s (obj.arrow s k).state := by
  cases obj with
  | null => exact Frame.same id s
  | ref b => exact h b

theorem frame_doDelete (s : State) (id : Int) (nlhs nrhs : Nat) :
    Frame id s (doDelete s id nlhs nrhs).state := by
  unfold doDelete
  split
  · exact Frame.same id s
  · exact Frame.erase id s

theorem frame_doClear (lib : Lib) (s : State) (id : Int) (obj : Ptr) (nlhs nrhs : Nat) :
    Frame id s (doClear lib s id obj nlhs nrhs).state := by
  unfold doClear
  split
  · exact Frame.same id s
  · exact frame_arrow id s obj _ (fun b => Frame.put id s _)

theorem frame_doLoad (lib : Lib) (s : State) (id : Int) (nlhs nrhs : Nat) (args : List MxArray) :
    Frame id s (doLoad lib s id nlhs nrhs args).state := by
  unfold doLoad
  repeat' split
  all_goals first | exact Frame.same id s | exact Frame.put id s _

theorem frame_doSave (lib : Lib) (s : State) (id : Int) (obj : Ptr) (nlhs nrhs : Nat)
    (args : List MxArray) : Frame id s (doSave lib s obj nlhs nrhs args).state := by
  unfold doSave
  repeat' split
  all_goals first
    | exact Frame.same id s
    | (apply frame_arrow; intro b; split <;> exact Frame.same id s)

theorem frame_doRead (s : State) (id : Int) (obj : Ptr) (nlhs nrhs : Nat) (c : Call)
    (m : Boost → Value) : Frame id s (doRead s obj nlhs nrhs c m).state := by
  unfold doRead
  split
  · exact Frame.same id s
  · exact frame_arrow id s obj _ (fun b => Frame.same id s)

theorem frame_doTrain (lib : Lib) (s : State) (id : Int) (obj : Ptr) (nlhs nrhs : Nat)
    (args : List MxArray) : Frame id s (doTrain lib s id obj nlhs nrhs args).state := by
  unfold doTrain
  repeat' split
  all_goals first
    | exact Frame.same id s
    | (apply frame_arrow; intro b; split <;> exact Frame.put id s _)

theorem frame_doCalcError (lib : Lib) (s : State) (id : Int) (obj : Ptr) (nlhs nrhs : Nat)
    (args : List MxArray) : Frame id s (doCalcError lib s obj nlhs nrhs args).state := by
  unfold doCalcError
  repeat' split
  all_goals first
    | exact Frame.same id s
    | (apply frame_arrow; intro b; split <;> exact Frame.same id s)

theorem frame_doPredict (lib : Lib) (s : State) (id : Int) (obj : Ptr) (nlhs nrhs : Nat)
    (args : List MxArray) : Frame id s (doPredict lib s obj nlhs nrhs args).state := by
  unfold doPredict
  repeat' split
  all_goals first
    | exact Frame.same id s
    | (apply frame_arrow; intro b; split <;> exact Frame.same id s)

theorem frame_getProp (s : State) (id : Int) (obj : Ptr) (prop : String) :
    Frame id s (getProp s obj prop).state := by
  refine getProp_cases (fun o => Frame id s o.state) s obj prop (fun k hk => ?_)
    (fun _ => Frame.same id s)
  exact frame_arrow id s obj k (fun b => by rw [(hk b).1]; exact Frame.same id s)

theorem frame_doGet (s : State) (id : Int) (obj : Ptr) (nlhs nrhs : Nat)
    (args : List MxArray) : Frame id s (doGet s obj nlhs nrhs args).state := by
  unfold doGet
  repeat' split
  all_goals first
    | exact Frame.same id s
    | exact frame_getProp s id obj _

theorem frame_applySetter {α : Type} (s : State) (id : Int) (obj : Ptr) (prop : String)
    (arg : Except Err α) (f : α → Boost → Boost) :
    Frame id s (applySetter s id obj prop arg f).state := by
  refine frame_arrow id s obj _ (fun b => ?_)
  cases arg with
  | error e => exact Frame.same id s
  | ok v => exact Frame.put id s _

theorem frame_setProp (s : State) (id : Int) (obj : Ptr) (prop : String) (a3 : MxArray) :
    Frame id s (setProp s id obj prop a3).state :=
  setProp_cases (fun o => Frame id s o.state) s id obj prop a3
    (fun _ arg f _ => frame_applySetter s id obj prop arg f) (fun _ => Frame.same id s)

theorem frame_doSet (s : State) (id : Int) (obj : Ptr) (nlhs nrhs : Nat)
    (args : List MxArray) : Frame id s (doSet s id obj nlhs nrhs args).state := by
  unfold doSet
  repeat' split
  all_goals first
    | exact Frame.same id s
    | exact frame_setProp s id obj _ _

/-- Every branch of the switch leaves the counter and the other entries alone. -/
theorem frame_dispatch (lib : Lib) (s : State) (id : Int) (obj : Ptr) (method : String)
    (nlhs nrhs : Nat) (args : List MxArray) :
    Frame id s (dispatch lib s id obj method nlhs nrhs args).state :=
  dispatch_cases (fun o => Frame id s o.state) lib s id obj method nlhs nrhs args
    (fun _ => frame_doDelete ..) (frame_doClear ..) (fun _ => frame_doLoad ..) (frame_doSave ..)
    (fun _ _ _ => frame_doRead ..) (frame_doTrain ..) (frame_doCalcError ..)
    (frame_doPredict ..) (frame_doGet ..) (frame_doSet ..) (Frame.same id s)

/-- A `new` request that does not return normally leaves the state as it
was. -/
theorem doNew_fail (lib : Lib) (s : State) (nlhs nrhs : Nat)
    (h : (doNew lib s nlhs nrhs).status ≠ Status.ok) : (doNew lib s nlhs nrhs).state = s := by
  unfold doNew at h ⊢
  cases hu : nargchk (decide (nrhs = 2 ∧ nlhs ≤ 1)) with
  | error e => rfl
  | ok u => rw [hu] at h; exact absurd rfl h

/-- The shape of a request that got past the first check and the two
conversions of lines 50-51. -/
theorem mexFunction_eq (lib : Lib) (s : State) (nlhs : Nat) (a0 a1 : MxArray)
    (args : List MxArray) (id : Int) (method : String) (hn : nlhs ≤ 2)
    (h0 : a0.toInt = some id) (h1 : a1.toString = some method) :
    mexFunction lib s nlhs (a0 :: a1 :: args) =
      if method = "new" then doNew lib s nlhs (args.length + 2)
      else dispatch lib (s.index id).2 id (s.index id).1 method nlhs (args.length + 2) args := by
  have hc : decide (args.length + 1 + 1 ≥ 2 ∧ nlhs ≤ 2) = true := by
    simp [hn]
  simp only [mexFunction, List.length_cons, hc, nargchk_true, h0, h1, conv]

/-! ## The counter along a run -/

/-- The stored integer is not wrapped while it stays below `2^31`. -/
theorem wrap32_succ (n : Int) (h0 : 0 ≤ n) (h1 : n + 1 < 2 ^ 31) : wrap32 (n + 1) = n + 1 := by
  unfold wrap32
  omega

/-- A request that is cut short by the first check or by the conversions of
lines 50-51 leaves the state as it was. -/
theorem mexFunction_early (lib : Lib) (s : State) (nlhs : Nat) (rhs : List MxArray)
    (h : ∀ a0 a1 args id method, rhs = a0 :: a1 :: args → nlhs ≤ 2 → a0.toInt = some id →
      a1.toString = some method → False) :
    (mexFunction lib s nlhs rhs).state = s ∧ (mexFunction lib s nlhs rhs).status ≠ Status.ok := by
  unfold mexFunction
  cases hc : nargchk (decide (rhs.length ≥ 2 ∧ nlhs ≤ 2)) with
  | error e => exact ⟨rfl, by simp [Outcome.fail]⟩
  | ok u =>
    have hcond := nargchk_ok hc
    simp only [decide_eq_true_eq] at hcond
    match rhs, h with
    | [], _ => exact ⟨rfl, by simp [Outcome.fail]⟩
    | [_], _ => exact ⟨rfl, by simp [Outcome.fail]⟩
    | a0 :: a1 :: args, h =>
      dsimp only
      cases h0 : a0.toInt with
      | none => exact ⟨rfl, by simp [conv, Outcome.fail]⟩
      | some id =>
        cases h1 : a1.toString with
        | none => exact ⟨rfl, by simp [conv, Outcome.fail]⟩
        | some method => exact (h a0 a1 args id method rfl hcond.2 h0 h1).elim

/-- A request that is cut short by the first check or by the conversions of
lines 50-51 makes no call. -/
theorem mexFunction_early_calls (lib : Lib) (s : State) (nlhs : Nat) (rhs : List MxArray)
    (h : ∀ a0 a1 args id method, rhs = a0 :: a1 :: args → nlhs ≤ 2 → a0.toInt = some id →
      a1.toString = some method → False) :
    (mexFunction lib s nlhs rhs).calls = [] := by
  unfold mexFunction
  cases hc : nargchk (decide (rhs.length ≥ 2 ∧ nlhs ≤ 2)) with
  | error e => rfl
  | ok u =>
    have hcond := nargchk_ok hc
    simp only [decide_eq_true_eq] at hcond
    match rhs, h with
    | [], _ => rfl
    | [_], _ => rfl
    | a0 :: a1 :: args, h =>
      dsimp only
      cases h0 : a0.toInt with
      | none => rfl
      | some id =>
        cases h1 : a1.toString with
        | none => rfl
        | some method => exact (h a0 a1 args id method rfl hcond.2 h0 h1).elim

/-- More than two outputs asked for: the first check rejects the request. -/
theorem mexFunction_nlhs (lib : Lib) (s : State) (nlhs : Nat) (rhs : List MxArray)
    (h : ¬ nlhs ≤ 2) : mexFunction lib s nlhs rhs = Outcome.fail Err.arity s [] := by
  have hc : decide (rhs.length ≥ 2 ∧ nlhs ≤ 2) = false := by simp [h]
  simp only [mexFunction, hc, nargchk]
  rfl

/-- One request moves the counter only when it is a `new` that returns, and then
to the next integer, which is also the handle it returns. -/
theorem step_counter (lib : Lib) (s : State) (r : Request) :
    (r.isNew = true ∧ (mexFunction lib s r.nlhs r.rhs).status = Status.ok ∧
      (mexFunction lib s r.nlhs r.rhs).plhs = [Value.int (wrap32 (s.last_id + 1))] ∧
      (mexFunction lib s r.nlhs r.rhs).state.last_id = wrap32 (s.last_id + 1)) ∨
    (¬ (r.isNew = true ∧ (mexFunction lib s r.nlhs r.rhs).status = Status.ok) ∧
      (mexFunction lib s r.nlhs r.rhs).state.last_id = s.last_id) := by
  by_cases hex : ∃ a0 a1 args id method, r.rhs = a0 :: a1 :: args ∧ r.nlhs ≤ 2 ∧
      a0.toInt = some id ∧ a1.toString = some method
  · obtain ⟨a0, a1, args, id, method, hr, hn, h0, h1⟩ := hex
    rw [hr, mexFunction_eq lib s r.nlhs a0 a1 args id method hn h0 h1]
    by_cases hm : method = "new"
    · rw [if_pos hm]
      have hnew : r.isNew = true := by simp [Request.isNew, hr, h1, hm]
      unfold doNew
      cases hc : nargchk (decide (args.length + 2 = 2 ∧ r.nlhs ≤ 1)) with
      | error e => exact Or.inr ⟨by simp [Outcome.fail], rfl⟩
      | ok u => exact Or.inl ⟨hnew, rfl, rfl, rfl⟩
    · rw [if_neg hm]
      refine Or.inr ⟨?_, ?_⟩
      · simp [Request.isNew, hr, h1, hm]
      · exact ((Frame.index id s).trans (frame_dispatch ..)).1
  · have h := mexFunction_early lib s r.nlhs r.rhs
      (fun a0 a1 args id method hr hn h0 h1 => hex ⟨a0, a1, args, id, method, hr, hn, h0, h1⟩)
    exact Or.inr ⟨fun hh => h.2 hh.2, by rw [h.1]⟩

/-- From a state whose counter is `n`, the successful `new` requests of a run
return `n+1`, `n+2`, ... in order, as long as the counter stays below `2^31`. -/
theorem successfulNews_plhs (lib : Lib) :
    ∀ (reqs : List Request) (s : State), 0 ≤ s.last_id → s.last_id + reqs.length < 2 ^ 31 →
      (successfulNews lib s reqs).map (fun o => o.plhs) =
        (List.range (successfulNews lib s reqs).length).map
          (fun (k : Nat) => [Value.int (s.last_id + 1 + (k : Int))])
  | [], s, _, _ => by simp [successfulNews, run]
  | r :: rs, s, h0, h1 => by
    have hlen : (r :: rs).length = rs.length + 1 := rfl
    rw [hlen] at h1
    push_cast at h1
    have key : ∀ t : State, 0 ≤ t.last_id → t.last_id + rs.length < 2 ^ 31 →
        (successfulNews lib t rs).map (fun o => o.plhs) =
        (List.range (successfulNews lib t rs).length).map
          (fun (k : Nat) => [Value.int (t.last_id + 1 + (k : Int))]) :=
      fun t => successfulNews_plhs lib rs t
    rcases step_counter lib s r with ⟨hnew, hok, hpl, hid⟩ | ⟨hnot, hid⟩
    · have hw : wrap32 (s.last_id + 1) = s.last_id + 1 := wrap32_succ _ h0 (by omega)
      rw [hw] at hpl hid
      have hne : (mexFunction lib s r.nlhs r.rhs).status ≠ Status.nullDeref := by
        rw [hok]; simp
      have hrun : successfulNews lib s (r :: rs) =
          mexFunction lib s r.nlhs r.rhs ::
            successfulNews lib (mexFunction lib s r.nlhs r.rhs).state rs := by
        simp [successfulNews, run, hnew, hok]
      rw [hrun]
      have ih := key (mexFunction lib s r.nlhs r.rhs).state (by rw [hid]; omega)
        (by rw [hid]; omega)
      rw [List.map_cons, ih, hpl, hid, List.length_cons, List.range_succ_eq_map, List.map_cons,
        List.map_map]
      congr 1
      · simp
      · apply List.map_congr_left
        intro k _
        simp only [Function.comp]
        congr 2
        push_cast
        ring
    · by_cases hcr : (mexFunction lib s r.nlhs r.rhs).status = Status.nullDeref
      · have hrun : successfulNews lib s (r :: rs) = [] := by
          have : ¬ (r.isNew = true ∧ Status.nullDeref = Status.ok) := by simp
          simp [successfulNews, run, hcr]
        rw [hrun]; simp
      · have hrun : successfulNews lib s (r :: rs) =
            successfulNews lib (mexFunction lib s r.nlhs r.rhs).state rs := by
          have hf : (r.isNew && decide ((mexFunction lib s r.nlhs r.rhs).status = Status.ok))
              = false := by
            by_cases hn : r.isNew = true
            · have : (mexFunction lib s r.nlhs r.rhs).status ≠ Status.ok :=
                fun hh => hnot ⟨hn, hh⟩
              simp [this]
            · simp [hn]
          simp [successfulNews, run, hcr, List.filter_cons, hf]
        rw [hrun]
        have ih := key (mexFunction lib s r.nlhs r.rhs).state (by rw [hid]; omega)
          (by rw [hid]; omega)
        rw [ih, hid]

/-- The handle of an outcome is read off its outputs. -/
theorem filterMap_handleOf (l : List Outcome) (n : Nat) (f : Nat → Int)
    (h : l.map (fun o => o.plhs) = (List.range n).map (fun k => [Value.int (f k)])) :
    l.filterMap handleOf = (List.range n).map f := by
  have h1 : l.filterMap handleOf =
      (l.map (fun o => o.plhs)).filterMap
        (fun p => match p with
          | [Value.int h] => some h
          | _ => none) := by
    rw [List.filterMap_map]
    rfl
  rw [h1, h, List.filterMap_map]
  induction (List.range n) with
  | nil => rfl
  | cons a t ih => simp [List.filterMap_cons, ih]

/-- C1: from the initial state (counter 0, empty registry), whatever requests
are interleaved, the k-th `new` that returns normally returns exactly the
handle k; the returned handles are therefore strictly increasing and pairwise
distinct, start at 1, and none is returned again after its deletion.  The
number of requests is below `2^31`, so that the `int` counter does not wrap. -/
theorem C1_new_handles (lib : Lib) (reqs : List Request) (hlen : reqs.length < 2 ^ 31) :
    (successfulNews lib State.init reqs).map (fun o => o.plhs) =
        (List.range (successfulNews lib State.init reqs).length).map
          (fun (k : Nat) => [Value.int ((k : Int) + 1)]) ∧
      newHandles lib State.init reqs =
        (List.range (successfulNews lib State.init reqs).length).map (fun (k : Nat) => (k : Int) + 1) ∧
      (newHandles lib State.init reqs).Pairwise (fun a b => a < b) ∧
      (newHandles lib State.init reqs).Nodup := by
  have h := successfulNews_plhs lib reqs State.init (le_refl _)
    (by simp only [State.init]; exact_mod_cast (by omega : (0 : Int) + reqs.length < 2 ^ 31))
  have h1 : (successfulNews lib State.init reqs).map (fun o => o.plhs) =
      (List.range (successfulNews lib State.init reqs).length).map
        (fun (k : Nat) => [Value.int ((k : Int) + 1)]) := by
    rw [h]
    apply List.map_congr_left
    intro k _
    simp only [State.init]
    congr 2
    ring
  have h2 := filterMap_handleOf _ _ (fun (k : Nat) => (k : Int) + 1) h1
  have h3 : (newHandles lib State.init reqs).Pairwise (fun a b => a < b) := by
    unfold newHandles
    rw [h2, List.pairwise_map]
    exact (List.pairwise_lt_range _).imp (fun hab => by omega)
  exact ⟨h1, h2, h3, h3.imp (fun hab => ne_of_lt hab)⟩

/-- C1 on a sample run of six requests (four `new`, one of them rejected for
its argument count, around two deletions of handle 1): the three handles
returned are 1, 2, 3. -/
theorem C1_witness :
    sampleRun.length < 2 ^ 31 ∧
      newHandles sampleLib State.init sampleRun =
        (List.range (successfulNews sampleLib State.init sampleRun).length).map
          (fun (k : Nat) => (k : Int) + 1) ∧
      (newHandles sampleLib State.init sampleRun).Nodup ∧
      newHandles sampleLib State.init sampleRun = [1, 2, 3] :=
  ⟨by decide, (C1_new_handles sampleLib sampleRun (by decide)).2.1,
    (C1_new_handles sampleLib sampleRun (by decide)).2.2.2, by decide⟩

/-! ## The errors of the option loops -/

/-- An option loop raises what the conversion of a key or its step raises. -/
theorem optLoop_error {σ : Type} (step : String → MxArray → σ → Except Err σ) (Q : Err → Prop)
    (hconv : Q Err.conversion)
    (hstep : ∀ key v st e, step key v st = Except.error e → Q e) :
    ∀ (l : List MxArray) (st : σ) (e : Err), optLoop step l st = Except.error e → Q e
  | [], st, e, h => by simp [optLoop] at h
  | [_], st, e, h => by simp [optLoop] at h
  | k :: v :: rest, st, e, h => by
    unfold optLoop at h
    cases hk : conv k.toString with
    | error e1 =>
      rw [hk] at h
      cases h
      rw [conv_error hk]; exact hconv
    | ok key =>
      rw [hk] at h
      dsimp only at h
      cases hs : step key v st with
      | error e1 =>
        rw [hs] at h
        cases h
        exact hstep key v st e hs
      | ok st1 =>
        rw [hs] at h
        exact optLoop_error step Q hconv hstep rest st1 e h

/-- The errors of one turn of the `load` loop. -/
theorem loadOption_error {key : String} {v : MxArray} {st : String × Bool} {e : Err}
    (h : loadOption key v st = Except.error e) :
    e = Err.conversion ∨ e = Err.unknownOption key := by
  unfold loadOption at h
  repeat' split at h
  all_goals first
    | (cases h; done)
    | (cases h; exact Or.inr rfl)
    | (cases h; rename_i hc; exact Or.inl (conv_error hc))

/-- The errors of one turn of the `train` loop. -/
theorem trainOption_error {key : String} {v : MxArray} {st : DataOptions × Int} {e : Err}
    (h : trainOption key v st = Except.error e) :
    e = Err.conversion ∨ e = Err.unknownOption key := by
  unfold trainOption at h
  repeat' split at h
  all_goals first
    | (cases h; done)
    | (cases h; exact Or.inr rfl)
    | (cases h; rename_i hc; exact Or.inl (conv_error hc))

/-- The errors of one turn of the `calcError` loop. -/
theorem calcErrorOption_error {key : String} {v : MxArray} {st : DataOptions × Bool} {e : Err}
    (h : calcErrorOption key v st = Except.error e) :
    e = Err.conversion ∨ e = Err.unknownOption key := by
  unfold calcErrorOption at h
  repeat' split at h
  all_goals first
    | (cases h; done)
    | (cases h; exact Or.inr rfl)
    | (cases h; rename_i hc; exact Or.inl (conv_error hc))

/-- The errors of one turn of the `predict` loop. -/
theorem predictOption_error {key : String} {v : MxArray} {flags : Int} {e : Err}
    (h : predictOption key v flags = Except.error e) :
    e = Err.conversion ∨ e = Err.unknownOption key := by
  unfold predictOption at h
  repeat' split at h
  all_goals first
    | exact Or.inl (conv_error h)
    | (cases h; done)
    | (cases h; exact Or.inr rfl)
    | (cases h; rename_i hc; exact Or.inl (conv_error hc))

/-! ## The branches that make no call on the instance -/

theorem calls_doDelete (s : State) (id : Int) (nlhs nrhs : Nat) :
    (doDelete s id nlhs nrhs).calls = [] := by
  unfold doDelete
  split <;> rfl

theorem calls_doLoad (lib : Lib) (s : State) (id : Int) (nlhs nrhs : Nat) (args : List MxArray) :
    (doLoad lib s id nlhs nrhs args).calls = [] := by
  unfold doLoad
  repeat' split
  all_goals rfl

/-! ## C9, the frame of a request -/

/-- C9: a request whose method is not `new`, issued with handle `h`, leaves
the handle counter and the registry entry of every other handle `k ≠ h`
(presence and instance) unchanged, whether it returns or fails; a `new` request
that does not return normally changes nothing at all. -/
theorem C9_other_entries_unchanged (lib : Lib) (s : State) (nlhs : Nat) (rhs : List MxArray) :
    (∀ a0 a1 args h method, rhs = a0 :: a1 :: args → a0.toInt = some h →
        a1.toString = some method → method ≠ "new" →
        (mexFunction lib s nlhs rhs).state.last_id = s.last_id ∧
          ∀ k, k ≠ h → (mexFunction lib s nlhs rhs).state.obj_ k = s.obj_ k) ∧
      (Request.isNew ⟨nlhs, rhs⟩ = true → (mexFunction lib s nlhs rhs).status ≠ Status.ok →
        (mexFunction lib s nlhs rhs).state = s) := by
  constructor
  · intro a0 a1 args h method hr h0 h1 hm
    by_cases hn : nlhs ≤ 2
    · rw [hr, mexFunction_eq lib s nlhs a0 a1 args h method hn h0 h1, if_neg hm]
      exact (Frame.index h s).trans (frame_dispatch ..)
    · have he := (mexFunction_early lib s nlhs rhs
        (fun _ _ _ _ _ _ hn2 _ _ => hn hn2)).1
      rw [he]
      exact ⟨rfl, fun _ _ => rfl⟩
  · intro hnew hfail
    by_cases hex : ∃ a0 a1 args id method, rhs = a0 :: a1 :: args ∧ nlhs ≤ 2 ∧
        a0.toInt = some id ∧ a1.toString = some method
    · obtain ⟨a0, a1, args, id, method, hr, hn, h0, h1⟩ := hex
      have hm : method = "new" := by
        simp only [Request.isNew, hr, h1, decide_eq_true_eq, Option.some.injEq] at hnew
        exact hnew
      rw [hr, mexFunction_eq lib s nlhs a0 a1 args id method hn h0 h1, if_pos hm] at hfail ⊢
      exact doNew_fail lib s nlhs _ hfail
    · exact (mexFunction_early lib s nlhs rhs
        (fun a0 a1 args id method hr hn h0 h1 =>
          hex ⟨a0, a1, args, id, method, hr, hn, h0, h1⟩)).1

/-- C9 at a concrete input: with handles 1 and 2 live, `set` on handle 1
changes neither the counter nor the entry of handle 2; a `new` with a third
argument fails and leaves the state as it was. -/
theorem C9_witness :
    ((mexFunction sampleLib twoLive 0
          [mxInt 1, mxStr "set", mxStr "MaxDepth", mxInt 5]).state.last_id = twoLive.last_id ∧
      (mexFunction sampleLib twoLive 0
          [mxInt 1, mxStr "set", mxStr "MaxDepth", mxInt 5]).state.obj_ 2 = twoLive.obj_ 2) ∧
    (mexFunction sampleLib twoLive 0 [mxInt 0, mxStr "new", mxInt 5]).state = twoLive :=
  ⟨⟨((C9_other_entries_unchanged sampleLib twoLive 0
        [mxInt 1, mxStr "set", mxStr "MaxDepth", mxInt 5]).1
        (mxInt 1) (mxStr "set") [mxStr "MaxDepth", mxInt 5] 1 "set" rfl rfl rfl (by decide)).1,
    ((C9_other_entries_unchanged sampleLib twoLive 0
        [mxInt 1, mxStr "set", mxStr "MaxDepth", mxInt 5]).1
        (mxInt 1) (mxStr "set") [mxStr "MaxDepth", mxInt 5] 1 "set" rfl rfl rfl (by decide)).2
        2 (by decide)⟩,
   (C9_other_entries_unchanged sampleLib twoLive 0 [mxInt 0, mxStr "new", mxInt 5]).2
      (by decide) (by decide)⟩

/-! ## C2, C3 and C4: the read of line 62 on an absent handle -/

/-- C2 fails on the code: `new` returns handle 1, `delete` of handle 1 returns
and leaves 1 out of the registry, and then a second `delete` of handle 1
returns normally as well: the read of line 62 finds no entry, inserts an empty
pointer instead of raising, and the request succeeds silently where the claim
asks for an unknown-handle error. -/
theorem C2_second_delete_returns :
    (mexFunction sampleLib State.init 1 [mxInt 0, mxStr "new"]).plhs = [Value.int 1] ∧
    (mexFunction sampleLib
      (mexFunction sampleLib State.init 1 [mxInt 0, mxStr "new"]).state 0
      [mxInt 1, mxStr "delete"]).status = Status.ok ∧
    (mexFunction sampleLib
      (mexFunction sampleLib State.init 1 [mxInt 0, mxStr "new"]).state 0
      [mxInt 1, mxStr "delete"]).state.obj_ 1 = none ∧
    (mexFunction sampleLib
      (mexFunction sampleLib
        (mexFunction sampleLib State.init 1 [mxInt 0, mxStr "new"]).state 0
        [mxInt 1, mxStr "delete"]).state 0
      [mxInt 1, mxStr "delete"]).status = Status.ok := by
  decide

/-- C3 fails on the code: from the initial state, one request naming the
unrecognised method `bogus` on handle 7 is rejected, and leaves 7 as a key of
the registry mapped to an empty pointer. -/
theorem C3_null_entry_reachable :
    State.init.obj_ 7 = none ∧
    (mexFunction sampleLib State.init 0 [mxInt 7, mxStr "bogus"]).status =
        Status.error (Err.unknownMethod "bogus") ∧
    (finalState sampleLib State.init [⟨0, [mxInt 7, mxStr "bogus"]⟩]).obj_ 7 =
        some Ptr.null := by
  decide

/-- C4 fails on the code: `clear` with three arguments on the absent handle 7
is rejected with the arity error, yet the registry has gained the key 7 (mapped
to an empty pointer): the state is not the one before the request. -/
theorem C4_arity_error_changes_state :
    State.init.obj_ 7 = none ∧
    (mexFunction sampleLib State.init 0 [mxInt 7, mxStr "clear", mxInt 0]).status =
        Status.error Err.arity ∧
    (mexFunction sampleLib State.init 0 [mxInt 7, mxStr "clear", mxInt 0]).state.obj_ 7 =
        some Ptr.null ∧
    (mexFunction sampleLib State.init 0 [mxInt 7, mxStr "clear", mxInt 0]).state ≠
        State.init := by
  refine ⟨by decide, by decide, by decide, fun h => ?_⟩
  have h7 := congrArg (fun t => t.obj_ 7) h
  revert h7
  decide

/-! ## The option loops on a list cut in two -/

/-- A loop over `pre ++ rest`, with `pre` made of whole pairs, is the loop over
`pre` followed by the loop over `rest`. -/
theorem optLoop_append {σ : Type} (step : String → MxArray → σ → Except Err σ) :
    ∀ (pre rest : List MxArray) (st : σ), pre.length % 2 = 0 →
      optLoop step (pre ++ rest) st =
        match optLoop step pre st with
        | Except.error e => Except.error e
        | Except.ok st1 => optLoop step rest st1
  | [], rest, st, _ => by simp [optLoop]
  | [_], _, _, h => by simp at h
  | k :: v :: pre, rest, st, h => by
    have hp : pre.length % 2 = 0 := by
      simp only [List.length_cons] at h
      omega
    simp only [List.cons_append, optLoop]
    cases conv k.toString with
    | error e => rfl
    | ok key =>
      dsimp only
      cases step key v st with
      | error e => rfl
      | ok st1 => exact optLoop_append step pre rest st1 hp

/-- A pair whose step raises `e` makes the loop raise `e`. -/
theorem optLoop_bad {σ : Type} (step : String → MxArray → σ → Except Err σ) (k v : MxArray)
    (post : List MxArray) (st : σ) (name : String) (e : Err) (hk : k.toString = some name)
    (hs : step name v st = Except.error e) :
    optLoop step (k :: v :: post) st = Except.error e := by
  simp only [optLoop, hk, conv, hs]

/-- A name outside the recognised ones is rejected by the `train` loop body. -/
theorem trainOption_unknown (name : String) (v : MxArray) (st : DataOptions × Int)
    (h : name ∉ trainNames) : trainOption name v st = Except.error (Err.unknownOption name) := by
  simp only [trainNames, List.mem_cons, List.mem_singleton, List.not_mem_nil, or_false,
    not_or] at h
  obtain ⟨h1, h2, h3, h4, h5, h6⟩ := h
  unfold trainOption
  rw [if_neg h1, if_neg h2, if_neg h3, if_neg h4, if_neg h5, if_neg h6]

/-- A name outside the recognised ones is rejected by the `predict` loop body. -/
theorem predictOption_unknown (name : String) (v : MxArray) (w : Int)
    (h : name ∉ predictNames) : predictOption name v w = Except.error (Err.unknownOption name) := by
  simp only [predictNames, List.mem_cons, List.mem_singleton, List.not_mem_nil, or_false,
    not_or] at h
  obtain ⟨h1, h2, h3, h4, h5, h6, h7⟩ := h
  unfold predictOption
  rw [if_neg h1, if_neg h2, if_neg h3, if_neg h4, if_neg h5, if_neg h6, if_neg h7]

/-- A loop that meets a pair rejected by its body, at the place of a name,
raises an error: the one of the earlier pairs if they raise, the rejection
otherwise. -/
theorem optLoop_reject {σ : Type} (step : String → MxArray → σ → Except Err σ)
    (pre post : List MxArray) (k v : MxArray) (st : σ) (name : String)
    (hpre : pre.length % 2 = 0) (hk : k.toString = some name)
    (hs : ∀ st1, step name v st1 = Except.error (Err.unknownOption name)) :
    (∀ e, optLoop step pre st = Except.error e →
        optLoop step (pre ++ k :: v :: post) st = Except.error e) ∧
      (∀ st1, optLoop step pre st = Except.ok st1 →
        optLoop step (pre ++ k :: v :: post) st = Except.error (Err.unknownOption name)) := by
  rw [optLoop_append step pre (k :: v :: post) st hpre]
  constructor
  · intro e he
    rw [he]
  · intro st1 h1
    rw [h1]
    exact optLoop_bad step k v post st1 name _ hk (hs st1)

/-! ## Requests on a live handle -/

/-- The read of line 62 on a present key returns the stored pointer and leaves
the map alone. -/
theorem index_live (s : State) (h : Int) (p : Ptr) (hl : s.obj_ h = some p) :
    s.index h = (p, s) := by
  simp [State.index, hl]

theorem dispatch_train (lib : Lib) (s : State) (id : Int) (obj : Ptr) (nlhs nrhs : Nat)
    (args : List MxArray) :
    dispatch lib s id obj "train" nlhs nrhs args = doTrain lib s id obj nlhs nrhs args := by
  simp [dispatch]

theorem dispatch_predict (lib : Lib) (s : State) (id : Int) (obj : Ptr) (nlhs nrhs : Nat)
    (args : List MxArray) :
    dispatch lib s id obj "predict" nlhs nrhs args = doPredict lib s obj nlhs nrhs args := by
  simp [dispatch]

theorem dispatch_get (lib : Lib) (s : State) (id : Int) (obj : Ptr) (nlhs nrhs : Nat)
    (args : List MxArray) :
    dispatch lib s id obj "get" nlhs nrhs args = doGet s obj nlhs nrhs args := by
  simp [dispatch]

theorem dispatch_set (lib : Lib) (s : State) (id : Int) (obj : Ptr) (nlhs nrhs : Nat)
    (args : List MxArray) :
    dispatch lib s id obj "set" nlhs nrhs args = doSet s id obj nlhs nrhs args := by
  simp [dispatch]

/-! ## Arity errors on a present handle -/

theorem arity_fail (e : Err) (s : State) :
    (Outcome.fail e s []).status = Status.error Err.arity → (Outcome.fail e s []).state = s :=
  fun _ => rfl

/-- A call through the pointer whose continuations never end on the arity
error does not end on it either. -/
theorem arity_arrow (s : State) (obj : Ptr) (k : Boost → Outcome)
    (h : ∀ b, (k b).status ≠ Status.error Err.arity) :
    (obj.arrow s k).status = Status.error Err.arity → (obj.arrow s k).state = s := by
  intro hs
  cases obj with
  | null => rfl
  | ref b => exact absurd hs (h b)

theorem lift_status_ne {α : Type} {x : Except Int α} {e : Err} (h : lift x = Except.error e) :
    e ≠ Err.arity := by
  obtain ⟨c, hc⟩ := lift_error h
  rw [hc]; simp

theorem arity_doDelete (s : State) (id : Int) (nlhs nrhs : Nat) :
    (doDelete s id nlhs nrhs).status = Status.error Err.arity →
      (doDelete s id nlhs nrhs).state = s := by
  unfold doDelete
  split
  · exact arity_fail _ _
  · intro h; simp [Outcome.done] at h

theorem arity_doClear (lib : Lib) (s : State) (id : Int) (obj : Ptr) (nlhs nrhs : Nat) :
    (doClear lib s id obj nlhs nrhs).status = Status.error Err.arity →
      (doClear lib s id obj nlhs nrhs).state = s := by
  unfold doClear
  split
  · exact arity_fail _ _
  · exact arity_arrow s obj _ (fun b => by simp [Outcome.done])

theorem arity_doLoad (lib : Lib) (s : State) (id : Int) (nlhs nrhs : Nat) (args : List MxArray) :
    (doLoad lib s id nlhs nrhs args).status = Status.error Err.arity →
      (doLoad lib s id nlhs nrhs args).state = s := by
  unfold doLoad
  repeat' split
  all_goals first
    | exact arity_fail _ _
    | (intro h; simp [Outcome.done] at h)

theorem arity_doSave (lib : Lib) (s : State) (obj : Ptr) (nlhs nrhs : Nat) (args : List MxArray) :
    (doSave lib s obj nlhs nrhs args).status = Status.error Err.arity →
      (doSave lib s obj nlhs nrhs args).state = s := by
  unfold doSave
  repeat' split
  all_goals first
    | exact arity_fail _ _
    | (refine arity_arrow s obj _ (fun b => ?_)
       split
       · rename_i hl
         simp only [Outcome.fail, ne_eq, Status.error.injEq]
         exact lift_status_ne hl
       · simp [Outcome.done])

theorem arity_doRead (s : State) (obj : Ptr) (nlhs nrhs : Nat) (c : Call) (m : Boost → Value) :
    (doRead s obj nlhs nrhs c m).status = Status.error Err.arity →
      (doRead s obj nlhs nrhs c m).state = s := by
  unfold doRead
  split
  · exact arity_fail _ _
  · exact arity_arrow s obj _ (fun b => by simp [Outcome.done])

theorem arity_doTrain (lib : Lib) (s : State) (id : Int) (obj : Ptr) (nlhs nrhs : Nat)
    (args : List MxArray) :
    (doTrain lib s id obj nlhs nrhs args).status = Status.error Err.arity →
      (doTrain lib s id obj nlhs nrhs args).state = s := by
  unfold doTrain
  repeat' split
  all_goals first
    | exact arity_fail _ _
    | (refine arity_arrow s obj _ (fun b => ?_)
       split <;> simp [Outcome.fail, Outcome.done])

theorem arity_doCalcError (lib : Lib) (s : State) (obj : Ptr) (nlhs nrhs : Nat)
    (args : List MxArray) :
    (doCalcError lib s obj nlhs nrhs args).status = Status.error Err.arity →
      (doCalcError lib s obj nlhs nrhs args).state = s := by
  unfold doCalcError
  repeat' split
  all_goals first
    | exact arity_fail _ _
    | (refine arity_arrow s obj _ (fun b => ?_)
       split
       · rename_i hl
         simp only [Outcome.fail, ne_eq, Status.error.injEq]
         exact lift_status_ne hl
       · simp [Outcome.done])

theorem arity_doPredict (lib : Lib) (s : State) (obj : Ptr) (nlhs nrhs : Nat)
    (args : List MxArray) :
    (doPredict lib s obj nlhs nrhs args).status = Status.error Err.arity →
      (doPredict lib s obj nlhs nrhs args).state = s := by
  unfold doPredict
  repeat' split
  all_goals first
    | exact arity_fail _ _
    | (refine arity_arrow s obj _ (fun b => ?_)
       split
       · rename_i hl
         simp only [Outcome.fail, ne_eq, Status.error.injEq]
         exact lift_status_ne hl
       · simp [Outcome.done])

theorem arity_doGet (s : State) (obj : Ptr) (nlhs nrhs : Nat) (args : List MxArray) :
    (doGet s obj nlhs nrhs args).status = Status.error Err.arity →
      (doGet s obj nlhs nrhs args).state = s := by
  unfold doGet
  repeat' split
  all_goals first
    | exact arity_fail _ _
    | (refine getProp_cases (fun o => o.status = Status.error Err.arity → o.state = s) _ _ _
          (fun k hk => ?_) (fun _ => arity_fail _ _)
       refine arity_arrow s _ k (fun b => ?_)
       rcases (hk b).2.2 with h1 | h1 <;> rw [h1] <;> simp)

theorem arity_doSet (s : State) (id : Int) (obj : Ptr) (nlhs nrhs : Nat) (args : List MxArray) :
    (doSet s id obj nlhs nrhs args).status = Status.error Err.arity →
      (doSet s id obj nlhs nrhs args).state = s := by
  unfold doSet
  repeat' split
  all_goals first
    | exact arity_fail _ _
    | (refine setProp_cases (fun o => o.status = Status.error Err.arity → o.state = s) _ _ _ _ _
          (fun α arg f harg => ?_) (fun _ => arity_fail _ _)
       unfold applySetter
       refine arity_arrow s _ _ (fun b => ?_)
       cases harg2 : arg with
       | error e => rcases harg e harg2 with h1 | h1 <;> simp [Outcome.fail, h1]
       | ok v => simp [Outcome.done])

/-- A branch of the switch that ends on the arity error leaves the state it
received. -/
theorem arity_dispatch (lib : Lib) (s : State) (id : Int) (obj : Ptr) (method : String)
    (nlhs nrhs : Nat) (args : List MxArray) :
    (dispatch lib s id obj method nlhs nrhs args).status = Status.error Err.arity →
      (dispatch lib s id obj method nlhs nrhs args).state = s :=
  dispatch_cases (fun o => o.status = Status.error Err.arity → o.state = s) lib s id obj method
    nlhs nrhs args (fun _ => arity_doDelete s id nlhs nrhs) (arity_doClear lib s id obj nlhs nrhs)
    (fun _ => arity_doLoad lib s id nlhs nrhs args) (arity_doSave lib s obj nlhs nrhs args)
    (fun c m _ => arity_doRead s obj nlhs nrhs c m) (arity_doTrain lib s id obj nlhs nrhs args)
    (arity_doCalcError lib s obj nlhs nrhs args) (arity_doPredict lib s obj nlhs nrhs args)
    (arity_doGet s obj nlhs nrhs args) (arity_doSet s id obj nlhs nrhs args) (arity_fail _ _)

/-- A request that ends on the arity error leaves the whole state unchanged
when its handle is a key of the registry, or when its method is `new`: only the
read of line 62 on an absent key can change the state of such a request. -/
theorem arity_error_present (lib : Lib) (s : State) (nlhs : Nat) (rhs : List MxArray)
    (hkey : ∀ a0 a1 args h method, rhs = a0 :: a1 :: args → a0.toInt = some h →
      a1.toString = some method → method ≠ "new" → s.obj_ h ≠ none)
    (herr : (mexFunction lib s nlhs rhs).status = Status.error Err.arity) :
    (mexFunction lib s nlhs rhs).state = s := by
  by_cases hex : ∃ a0 a1 args id method, rhs = a0 :: a1 :: args ∧ nlhs ≤ 2 ∧
      a0.toInt = some id ∧ a1.toString = some method
  · obtain ⟨a0, a1, args, id, method, hr, hn, h0, h1⟩ := hex
    rw [hr, mexFunction_eq lib s nlhs a0 a1 args id method hn h0 h1] at herr ⊢
    by_cases hm : method = "new"
    · rw [if_pos hm] at herr ⊢
      exact doNew_fail lib s nlhs _ (by rw [herr]; simp)
    · rw [if_neg hm] at herr ⊢
      have hk := hkey a0 a1 args id method hr h0 h1 hm
      cases hp : s.obj_ id with
      | none => exact absurd hp hk
      | some p =>
        rw [index_live s id p hp] at herr ⊢
        exact arity_dispatch lib s id p method nlhs _ args herr
  · exact (mexFunction_early lib s nlhs rhs
      (fun a0 a1 args id method hr hn h0 h1 =>
        hex ⟨a0, a1, args, id, method, hr, hn, h0, h1⟩)).1

/-! ## C5, an unrecognised option or property name -/

/-- A well-formed `train` request on a live handle whose option loop raises `e`
fails with `e`, before the dataset is built and before `train` is called. -/
theorem train_loop_error (lib : Lib) (s : State) (nlhs : Nat) (h : Int) (b : Boost)
    (a0 a1 a2 a3 : MxArray) (opts : List MxArray) (e : Err)
    (hlive : s.obj_ h = some (Ptr.ref b)) (h0 : a0.toInt = some h)
    (h1 : a1.toString = some "train") (hn : nlhs ≤ 1) (hp : opts.length % 2 = 0)
    (he : trainOpts opts ([], 0) = Except.error e) :
    (mexFunction lib s nlhs (a0 :: a1 :: a2 :: a3 :: opts)).state = s ∧
      (mexFunction lib s nlhs (a0 :: a1 :: a2 :: a3 :: opts)).calls = [] ∧
      (mexFunction lib s nlhs (a0 :: a1 :: a2 :: a3 :: opts)).status = Status.error e := by
  have hd : ("train" : String) ≠ "new" := by decide
  rw [mexFunction_eq lib s nlhs a0 a1 _ h "train" (by omega) h0 h1, if_neg hd,
    index_live s h _ hlive, dispatch_train]
  unfold doTrain
  have hc : decide ((a2 :: a3 :: opts).length + 2 ≥ 4 ∧
      ((a2 :: a3 :: opts).length + 2) % 2 = 0 ∧ nlhs ≤ 1) = true := by
    simp only [List.length_cons, decide_eq_true_eq]
    omega
  rw [hc, nargchk_true]
  dsimp only
  rw [he]
  exact ⟨rfl, rfl, rfl⟩

/-- A well-formed `predict` request on a live handle whose option loop raises
`e` fails with `e`, before the samples are read and before `predict` is
called. -/
theorem predict_loop_error (lib : Lib) (s : State) (nlhs : Nat) (h : Int) (b : Boost)
    (a0 a1 a2 : MxArray) (opts : List MxArray) (e : Err)
    (hlive : s.obj_ h = some (Ptr.ref b)) (h0 : a0.toInt = some h)
    (h1 : a1.toString = some "predict") (hn : nlhs ≤ 2) (hp : opts.length % 2 = 0)
    (he : predictOpts opts 0 = Except.error e) :
    (mexFunction lib s nlhs (a0 :: a1 :: a2 :: opts)).state = s ∧
      (mexFunction lib s nlhs (a0 :: a1 :: a2 :: opts)).calls = [] ∧
      (mexFunction lib s nlhs (a0 :: a1 :: a2 :: opts)).status = Status.error e := by
  have hd : ("predict" : String) ≠ "new" := by decide
  rw [mexFunction_eq lib s nlhs a0 a1 _ h "predict" hn h0 h1, if_neg hd,
    index_live s h _ hlive, dispatch_predict]
  unfold doPredict
  have hc : decide ((a2 :: opts).length + 2 ≥ 3 ∧
      ((a2 :: opts).length + 2) % 2 = 1 ∧ nlhs ≤ 2) = true := by
    simp only [List.length_cons, decide_eq_true_eq]
    omega
  rw [hc, nargchk_true]
  dsimp only
  rw [he]
  exact ⟨rfl, rfl, rfl⟩

/-- A name outside the twelve is rejected by the `set` chain before any
conversion and any setter. -/
theorem setProp_unknown (s : State) (id : Int) (obj : Ptr) (name : String) (a3 : MxArray)
    (h : name ∉ propNames) :
    setProp s id obj name a3 = Outcome.fail (Err.unknownProperty name) s [] := by
  simp only [propNames, List.mem_cons, List.mem_singleton, List.not_mem_nil, or_false,
    not_or] at h
  obtain ⟨h1, h2, h3, h4, h5, h6, h7, h8, h9, h10, h11, h12⟩ := h
  unfold setProp
  rw [if_neg h1, if_neg h2, if_neg h3, if_neg h4, if_neg h5, if_neg h6, if_neg h7, if_neg h8,
    if_neg h9, if_neg h10, if_neg h11, if_neg h12]

/-- A name outside the twelve is rejected by the `get` chain. -/
theorem getProp_unknown (s : State) (obj : Ptr) (name : String) (h : name ∉ propNames) :
    getProp s obj name = Outcome.fail (Err.unknownProperty name) s [] := by
  simp only [propNames, List.mem_cons, List.mem_singleton, List.not_mem_nil, or_false,
    not_or] at h
  obtain ⟨h1, h2, h3, h4, h5, h6, h7, h8, h9, h10, h11, h12⟩ := h
  unfold getProp
  rw [if_neg h1, if_neg h2, if_neg h3, if_neg h4, if_neg h5, if_neg h6, if_neg h7, if_neg h8,
    if_neg h9, if_neg h10, if_neg h11, if_neg h12]

/-- A well-formed `set` request on a live handle runs the `set` chain on the
stored instance. -/
theorem mex_set (lib : Lib) (s : State) (h : Int) (b : Boost) (a0 a1 a2 a3 : MxArray)
    (name : String) (hlive : s.obj_ h = some (Ptr.ref b)) (h0 : a0.toInt = some h)
    (h1 : a1.toString = some "set") (h2 : a2.toString = some name) :
    mexFunction lib s 0 [a0, a1, a2, a3] = setProp s h (Ptr.ref b) name a3 := by
  have hd : ("set" : String) ≠ "new" := by decide
  rw [mexFunction_eq lib s 0 a0 a1 _ h "set" (by omega) h0 h1, if_neg hd,
    index_live s h _ hlive, dispatch_set]
  simp [doSet, nargchk, conv, h2]

/-- A well-formed `get` request on a live handle runs the `get` chain on the
stored instance. -/
theorem mex_get (lib : Lib) (s : State) (nlhs : Nat) (h : Int) (b : Boost) (a0 a1 a2 : MxArray)
    (name : String) (hlive : s.obj_ h = some (Ptr.ref b)) (h0 : a0.toInt = some h)
    (h1 : a1.toString = some "get") (h2 : a2.toString = some name) (hn : nlhs ≤ 1) :
    mexFunction lib s nlhs [a0, a1, a2] = getProp s (Ptr.ref b) name := by
  have hd : ("get" : String) ≠ "new" := by decide
  rw [mexFunction_eq lib s nlhs a0 a1 _ h "get" (by omega) h0 h1, if_neg hd,
    index_live s h _ hlive, dispatch_get]
  simp [doGet, nargchk, conv, h2, hn]

/-- The errors of the `train` loop. -/
theorem trainOpts_error {l : List MxArray} {st : DataOptions × Int} {e : Err}
    (h : trainOpts l st = Except.error e) :
    e = Err.conversion ∨ ∃ key, e = Err.unknownOption key :=
  optLoop_error trainOption (fun e => e = Err.conversion ∨ ∃ key, e = Err.unknownOption key)
    (Or.inl rfl) (fun key _ _ _ hs => (trainOption_error hs).imp id (fun h2 => ⟨key, h2⟩)) l st e h

/-- The errors of the `predict` loop. -/
theorem predictOpts_error {l : List MxArray} {w : Int} {e : Err}
    (h : predictOpts l w = Except.error e) :
    e = Err.conversion ∨ ∃ key, e = Err.unknownOption key :=
  optLoop_error predictOption (fun e => e = Err.conversion ∨ ∃ key, e = Err.unknownOption key)
    (Or.inl rfl) (fun key _ _ _ hs => (predictOption_error hs).imp id (fun h2 => ⟨key, h2⟩)) l w e h

/-- C5 fails as stated: on the live handle 1, `predict` with the options
`Flags, "abc"` and `Bogus, 0` has the unrecognised name `Bogus`; the loop first
reads the value of `Flags` with `toInt`, the three-character string is no
integer scalar, and the request fails with that conversion error, not with the
unrecognised-option error. -/
theorem C5_counterexample :
    oneLive.obj_ 1 = some (Ptr.ref sampleBoost) ∧ "Bogus" ∉ predictNames ∧
    (mexFunction sampleLib oneLive 1
      [mxInt 1, mxStr "predict", mxMat ⟨[[1]]⟩, mxStr "Flags", mxStr "abc",
        mxStr "Bogus", mxInt 0]).status = Status.error Err.conversion := by
  decide

/-- C5, amended: on a live handle, a `train`, `predict` or `set` request of
well-formed arity in which an option name (for `set`, the property name) is not
a recognised one fails and does not mutate the instance: the state is the one
before the request and no call on the instance is made, whatever the position
of the bad name among the option pairs.  The error is the unrecognised-property
error for `set`; for `train` and `predict` it is a conversion error or an
unrecognised-option error, and it is the unrecognised-option error of the bad
name as soon as the option pairs before it are processed without error. -/
theorem C5_unrecognised_name (lib : Lib) (s : State) (h : Int) (b : Boost) (a0 : MxArray)
    (hlive : s.obj_ h = some (Ptr.ref b)) (h0 : a0.toInt = some h) :
    (∀ (nlhs : Nat) (a1 a2 a3 k v : MxArray) (pre post : List MxArray) (name : String),
        a1.toString = some "train" → nlhs ≤ 1 → pre.length % 2 = 0 → post.length % 2 = 0 →
        k.toString = some name → name ∉ trainNames →
        (mexFunction lib s nlhs (a0 :: a1 :: a2 :: a3 :: (pre ++ k :: v :: post))).state = s ∧
        (mexFunction lib s nlhs (a0 :: a1 :: a2 :: a3 :: (pre ++ k :: v :: post))).calls = [] ∧
        (∃ e, (mexFunction lib s nlhs
              (a0 :: a1 :: a2 :: a3 :: (pre ++ k :: v :: post))).status = Status.error e ∧
            (e = Err.conversion ∨ ∃ key, e = Err.unknownOption key)) ∧
        (∀ st, trainOpts pre ([], 0) = Except.ok st →
          (mexFunction lib s nlhs (a0 :: a1 :: a2 :: a3 :: (pre ++ k :: v :: post))).status =
            Status.error (Err.unknownOption name))) ∧
    (∀ (nlhs : Nat) (a1 a2 k v : MxArray) (pre post : List MxArray) (name : String),
        a1.toString = some "predict" → nlhs ≤ 2 → pre.length % 2 = 0 → post.length % 2 = 0 →
        k.toString = some name → name ∉ predictNames →
        (mexFunction lib s nlhs (a0 :: a1 :: a2 :: (pre ++ k :: v :: post))).state = s ∧
        (mexFunction lib s nlhs (a0 :: a1 :: a2 :: (pre ++ k :: v :: post))).calls = [] ∧
        (∃ e, (mexFunction lib s nlhs
              (a0 :: a1 :: a2 :: (pre ++ k :: v :: post))).status = Status.error e ∧
            (e = Err.conversion ∨ ∃ key, e = Err.unknownOption key)) ∧
        (∀ w, predictOpts pre 0 = Except.ok w →
          (mexFunction lib s nlhs (a0 :: a1 :: a2 :: (pre ++ k :: v :: post))).status =
            Status.error (Err.unknownOption name))) ∧
    (∀ (a1 a2 a3 : MxArray) (name : String),
        a1.toString = some "set" → a2.toString = some name → name ∉ propNames →
        (mexFunction lib s 0 [a0, a1, a2, a3]).state = s ∧
        (mexFunction lib s 0 [a0, a1, a2, a3]).calls = [] ∧
        (mexFunction lib s 0 [a0, a1, a2, a3]).status =
          Status.error (Err.unknownProperty name)) := by
  refine ⟨?_, ?_, ?_⟩
  · intro nlhs a1 a2 a3 k v pre post name h1 hn hpre hpost hk hbad
    have hp : (pre ++ k :: v :: post).length % 2 = 0 := by
      simp only [List.length_append, List.length_cons]
      omega
    have hrej := optLoop_reject trainOption pre post k v ([], 0) name hpre hk
      (fun st1 => trainOption_unknown name v st1 hbad)
    cases hpre2 : trainOpts pre ([], 0) with
    | error e =>
      have he := hrej.1 e hpre2
      have hr := train_loop_error lib s nlhs h b a0 a1 a2 a3 _ e hlive h0 h1 hn hp he
      exact ⟨hr.1, hr.2.1, ⟨e, hr.2.2, trainOpts_error hpre2⟩, fun st hst => by cases hst⟩
    | ok st1 =>
      have he := hrej.2 st1 hpre2
      have hr := train_loop_error lib s nlhs h b a0 a1 a2 a3 _ _ hlive h0 h1 hn hp he
      exact ⟨hr.1, hr.2.1, ⟨_, hr.2.2, Or.inr ⟨name, rfl⟩⟩, fun _ _ => hr.2.2⟩
  · intro nlhs a1 a2 k v pre post name h1 hn hpre hpost hk hbad
    have hp : (pre ++ k :: v :: post).length % 2 = 0 := by
      simp only [List.length_append, List.length_cons]
      omega
    have hrej := optLoop_reject predictOption pre post k v 0 name hpre hk
      (fun st1 => predictOption_unknown name v st1 hbad)
    cases hpre2 : predictOpts pre 0 with
    | error e =>
      have he := hrej.1 e hpre2
      have hr := predict_loop_error lib s nlhs h b a0 a1 a2 _ e hlive h0 h1 hn hp he
      exact ⟨hr.1, hr.2.1, ⟨e, hr.2.2, predictOpts_error hpre2⟩, fun st hst => by cases hst⟩
    | ok st1 =>
      have he := hrej.2 st1 hpre2
      have hr := predict_loop_error lib s nlhs h b a0 a1 a2 _ _ hlive h0 h1 hn hp he
      exact ⟨hr.1, hr.2.1, ⟨_, hr.2.2, Or.inr ⟨name, rfl⟩⟩, fun _ _ => hr.2.2⟩
  · intro a1 a2 a3 name h1 h2 hbad
    rw [mex_set lib s h b a0 a1 a2 a3 name hlive h0 h1 h2, setProp_unknown s h _ name a3 hbad]
    exact ⟨rfl, rfl, rfl⟩

/-- C5 (amended) at concrete inputs on the live handle 1: `train` with the
options `RawOutput, true` then `Bogus, 0`, `predict` with `Bogus, 0` first, and
`set` of the property `Bogus`. -/
theorem C5_witness :
    (mexFunction sampleLib oneLive 1
        [mxInt 1, mxStr "train", mxMat ⟨[[1]]⟩, mxMat ⟨[[0]]⟩, mxStr "RawOutput", mxBool true,
          mxStr "Bogus", mxInt 0]).status = Status.error (Err.unknownOption "Bogus") ∧
    (mexFunction sampleLib oneLive 1
        [mxInt 1, mxStr "predict", mxMat ⟨[[1]]⟩, mxStr "Bogus", mxInt 0,
          mxStr "RawOutput", mxBool true]).calls = [] ∧
    (mexFunction sampleLib oneLive 0
        [mxInt 1, mxStr "set", mxStr "Bogus", mxInt 0]).state = oneLive :=
  have w := C5_unrecognised_name sampleLib oneLive 1 sampleBoost (mxInt 1) (by decide) rfl
  ⟨(w.1 1 (mxStr "train") (mxMat ⟨[[1]]⟩) (mxMat ⟨[[0]]⟩) (mxStr "Bogus") (mxInt 0)
      [mxStr "RawOutput", mxBool true] [] "Bogus" rfl (by decide) (by decide) (by decide) rfl
      (by decide)).2.2.2 ([], 1) (by decide),
   (w.2.1 1 (mxStr "predict") (mxMat ⟨[[1]]⟩) (mxStr "Bogus") (mxInt 0) []
      [mxStr "RawOutput", mxBool true] "Bogus" rfl (by decide) (by decide) (by decide) rfl
      (by decide)).2.1,
   (w.2.2 (mxStr "set") (mxStr "Bogus") (mxInt 0) "Bogus" rfl rfl (by decide)).1⟩

/-! ## The bits of the flag word -/

/-- Bit `i` of the power `2^j`, as an `int`. -/
theorem testBit_two_pow_int (j i : Nat) : Int.testBit ((2 : Int) ^ j) i = decide (j = i) := by
  have h : ((2 : Int) ^ j) = ((2 ^ j : Nat) : Int) := by push_cast; rfl
  rw [h]
  show Nat.testBit (2 ^ j) i = decide (j = i)
  exact Nat.testBit_two_pow

/-- `UPDATE_FLAG` on the bit `2^j` writes `b` into bit `j` and leaves the other
bits alone. -/
theorem testBit_UPDATE_FLAG (w : Int) (b : Bool) (j i : Nat) :
    (UPDATE_FLAG w b (2 ^ j)).testBit i = if i = j then b else w.testBit i := by
  unfold UPDATE_FLAG
  by_cases hij : i = j
  · subst hij
    cases b <;> simp [Int.testBit_lor, Int.testBit_land, Int.testBit_lnot, testBit_two_pow_int]
  · have hji : ¬ j = i := fun h => hij h.symm
    cases b <;>
      simp [Int.testBit_lor, Int.testBit_land, Int.testBit_lnot, testBit_two_pow_int, hij, hji]

theorem RAW_OUTPUT_eq : RAW_OUTPUT = 2 ^ 0 := rfl

theorem COMPRESSED_INPUT_eq : COMPRESSED_INPUT = 2 ^ 1 := rfl

theorem PREPROCESSED_INPUT_eq : PREPROCESSED_INPUT = 2 ^ 2 := rfl

theorem PREDICT_SUM_eq : PREDICT_SUM = 2 ^ 8 := rfl

theorem PREDICT_MAX_VOTE_eq : PREDICT_MAX_VOTE = 2 ^ 9 := rfl

/-! ## C6, the option PredictAuto -/

/-- The `predict` loop on one pair whose name is recognised and whose value
converts. -/
theorem predictOpts_pair (k v : MxArray) (rest : List MxArray) (w w1 : Int) (name : String)
    (hk : k.toString = some name) (hs : predictOption name v w = Except.ok w1) :
    predictOpts (k :: v :: rest) w = predictOpts rest w1 := by
  simp only [predictOpts, optLoop, hk, conv, hs]

theorem predictOption_auto (v : MxArray) (w : Int) (b : Bool) (hv : v.toBool = some b) :
    predictOption "PredictAuto" v w =
      Except.ok (UPDATE_FLAG (UPDATE_FLAG w (!b) PREDICT_SUM) (!b) PREDICT_MAX_VOTE) := by
  simp [predictOption, conv, hv]

theorem predictOption_sum (v : MxArray) (w : Int) (b : Bool) (hv : v.toBool = some b) :
    predictOption "PredictSum" v w = Except.ok (UPDATE_FLAG w b PREDICT_SUM) := by
  simp [predictOption, conv, hv]

theorem predictOption_maxVote (v : MxArray) (w : Int) (b : Bool) (hv : v.toBool = some b) :
    predictOption "PredictMaxVote" v w = Except.ok (UPDATE_FLAG w b PREDICT_MAX_VOTE) := by
  simp [predictOption, conv, hv]

/-- `PredictAuto = b` is processed as `PredictSum = !b` followed by
`PredictMaxVote = !b`, whatever follows. -/
theorem predictOpts_auto (kAuto kSum kMax v v1 v2 : MxArray) (rest : List MxArray) (w : Int)
    (b : Bool) (hA : kAuto.toString = some "PredictAuto") (hS : kSum.toString = some "PredictSum")
    (hM : kMax.toString = some "PredictMaxVote") (hv : v.toBool = some b)
    (hv1 : v1.toBool = some (!b)) (hv2 : v2.toBool = some (!b)) :
    predictOpts (kAuto :: v :: rest) w = predictOpts (kSum :: v1 :: kMax :: v2 :: rest) w := by
  rw [predictOpts_pair kAuto v rest w _ _ hA (predictOption_auto v w b hv),
    predictOpts_pair kSum v1 _ w _ _ hS (predictOption_sum v1 w _ hv1),
    predictOpts_pair kMax v2 _ _ _ _ hM (predictOption_maxVote v2 _ _ hv2)]

/-- Two `predict` requests whose option loops agree have the same outcome. -/
theorem doPredict_congr (lib : Lib) (s : State) (obj : Ptr) (nlhs n1 n2 : Nat) (a2 : MxArray)
    (o1 o2 : List MxArray) (hn : (n1 ≥ 3 ∧ n1 % 2 = 1) ↔ (n2 ≥ 3 ∧ n2 % 2 = 1))
    (ho : predictOpts o1 0 = predictOpts o2 0) :
    doPredict lib s obj nlhs n1 (a2 :: o1) = doPredict lib s obj nlhs n2 (a2 :: o2) := by
  have hc : decide (n1 ≥ 3 ∧ n1 % 2 = 1 ∧ nlhs ≤ 2) = decide (n2 ≥ 3 ∧ n2 % 2 = 1 ∧ nlhs ≤ 2) := by
    apply decide_eq_decide.mpr
    constructor
    · rintro ⟨h1, h2, h3⟩
      exact ⟨(hn.mp ⟨h1, h2⟩).1, (hn.mp ⟨h1, h2⟩).2, h3⟩
    · rintro ⟨h1, h2, h3⟩
      exact ⟨(hn.mpr ⟨h1, h2⟩).1, (hn.mpr ⟨h1, h2⟩).2, h3⟩
  unfold doPredict
  rw [hc]
  dsimp only
  rw [ho]

/-- C6: in `predict`, for every flag word `f`, the option `PredictAuto = true`
yields the same flag word as `PredictSum = false` followed by
`PredictMaxVote = false`: bits 8 (`PREDICT_SUM`) and 9 (`PREDICT_MAX_VOTE`) are
cleared and every other bit is unchanged; dually `PredictAuto = false` sets
both bits.  Two `predict` requests that differ only in writing the one or the
other, anywhere among the option pairs, have the same outcome, and so pass the
same flags to the model. -/
theorem C6_predict_auto (f : Int) (kAuto kSum kMax vT vF : MxArray)
    (hA : kAuto.toString = some "PredictAuto") (hS : kSum.toString = some "PredictSum")
    (hM : kMax.toString = some "PredictMaxVote") (hT : vT.toBool = some true)
    (hF : vF.toBool = some false) :
    predictOpts [kAuto, vT] f = predictOpts [kSum, vF, kMax, vF] f ∧
    (∃ g, predictOpts [kAuto, vT] f = Except.ok g ∧ g.testBit 8 = false ∧ g.testBit 9 = false ∧
      ∀ i, i ≠ 8 → i ≠ 9 → g.testBit i = f.testBit i) ∧
    predictOpts [kAuto, vF] f = predictOpts [kSum, vT, kMax, vT] f ∧
    (∃ g, predictOpts [kAuto, vF] f = Except.ok g ∧ g.testBit 8 = true ∧ g.testBit 9 = true ∧
      ∀ i, i ≠ 8 → i ≠ 9 → g.testBit i = f.testBit i) ∧
    (∀ (lib : Lib) (s : State) (nlhs : Nat) (a0 a1 a2 : MxArray) (pre post : List MxArray),
      a1.toString = some "predict" → pre.length % 2 = 0 →
      mexFunction lib s nlhs (a0 :: a1 :: a2 :: (pre ++ kAuto :: vT :: post)) =
        mexFunction lib s nlhs (a0 :: a1 :: a2 :: (pre ++ kSum :: vF :: kMax :: vF :: post))) := by
  refine ⟨predictOpts_auto kAuto kSum kMax vT vF vF [] f true hA hS hM hT hF hF, ?_,
    predictOpts_auto kAuto kSum kMax vF vT vT [] f false hA hS hM hF hT hT, ?_, ?_⟩
  · refine ⟨UPDATE_FLAG (UPDATE_FLAG f (!true) PREDICT_SUM) (!true) PREDICT_MAX_VOTE,
      ?_, ?_, ?_, ?_⟩
    · rw [predictOpts_pair kAuto vT [] f _ _ hA (predictOption_auto vT f true hT)]
      rfl
    · rw [PREDICT_SUM_eq, PREDICT_MAX_VOTE_eq, testBit_UPDATE_FLAG, testBit_UPDATE_FLAG]
      simp
    · rw [PREDICT_SUM_eq, PREDICT_MAX_VOTE_eq, testBit_UPDATE_FLAG]
      simp
    · intro i h8 h9
      rw [PREDICT_SUM_eq, PREDICT_MAX_VOTE_eq, testBit_UPDATE_FLAG, testBit_UPDATE_FLAG,
        if_neg h9, if_neg h8]
  · refine ⟨UPDATE_FLAG (UPDATE_FLAG f (!false) PREDICT_SUM) (!false) PREDICT_MAX_VOTE,
      ?_, ?_, ?_, ?_⟩
    · rw [predictOpts_pair kAuto vF [] f _ _ hA (predictOption_auto vF f false hF)]
      rfl
    · rw [PREDICT_SUM_eq, PREDICT_MAX_VOTE_eq, testBit_UPDATE_FLAG, testBit_UPDATE_FLAG]
      simp
    · rw [PREDICT_SUM_eq, PREDICT_MAX_VOTE_eq, testBit_UPDATE_FLAG]
      simp
    · intro i h8 h9
      rw [PREDICT_SUM_eq, PREDICT_MAX_VOTE_eq, testBit_UPDATE_FLAG, testBit_UPDATE_FLAG,
        if_neg h9, if_neg h8]
  · intro lib s nlhs a0 a1 a2 pre post h1 hpre
    have hloop : predictOpts (pre ++ kAuto :: vT :: post) 0 =
        predictOpts (pre ++ kSum :: vF :: kMax :: vF :: post) 0 := by
      unfold predictOpts
      rw [optLoop_append predictOption pre _ 0 hpre, optLoop_append predictOption pre _ 0 hpre]
      cases optLoop predictOption pre 0 with
      | error e => rfl
      | ok w => exact predictOpts_auto kAuto kSum kMax vT vF vF post w true hA hS hM hT hF hF
    by_cases hn : nlhs ≤ 2
    · cases h0 : a0.toInt with
      | none =>
        have hc1 : decide ((a0 :: a1 :: a2 :: (pre ++ kAuto :: vT :: post)).length ≥ 2 ∧
            nlhs ≤ 2) = true := by simp [hn]
        have hc2 : decide ((a0 :: a1 :: a2 ::
            (pre ++ kSum :: vF :: kMax :: vF :: post)).length ≥ 2 ∧ nlhs ≤ 2) = true := by
          simp [hn]
        simp only [mexFunction, hc1, hc2, nargchk_true, h0, conv]
      | some h =>
        have hd : ("predict" : String) ≠ "new" := by decide
        rw [mexFunction_eq lib s nlhs a0 a1 _ h "predict" hn h0 h1,
          mexFunction_eq lib s nlhs a0 a1 _ h "predict" hn h0 h1, if_neg hd, if_neg hd,
          dispatch_predict, dispatch_predict]
        apply doPredict_congr _ _ _ _ _ _ _ _ _ _ hloop
        simp only [List.length_cons, List.length_append]
        omega
    · rw [mexFunction_nlhs lib s nlhs _ hn, mexFunction_nlhs lib s nlhs _ hn]

/-- C6 at a concrete input: from the flag word 769 (`RawOutput`, `PredictSum`
and `PredictMaxVote` set), `PredictAuto = true` and the two explicit clearings
agree; from the word 1, `PredictAuto = false` gives 769. -/
theorem C6_witness :
    predictOpts [mxStr "PredictAuto", mxBool true] 769 =
        predictOpts [mxStr "PredictSum", mxBool false, mxStr "PredictMaxVote", mxBool false] 769 ∧
      predictOpts [mxStr "PredictAuto", mxBool false] 1 = Except.ok 769 :=
  ⟨(C6_predict_auto 769 (mxStr "PredictAuto") (mxStr "PredictSum") (mxStr "PredictMaxVote")
      (mxBool true) (mxBool false) rfl rfl rfl rfl rfl).1, by decide⟩

/-! ## C8, the two tables -/

/-- A string outside the four is not a key of `BoostType`. -/
theorem BoostType_miss (t : String) (h : t ∉ boostNames) :
    BoostType.get t = Except.error Err.valueNotFound := by
  simp only [boostNames, List.mem_cons, List.mem_singleton, List.not_mem_nil, or_false,
    not_or] at h
  obtain ⟨h1, h2, h3, h4⟩ := h
  have g1 : ¬ "Discrete" = t := fun e => h1 e.symm
  have g2 : ¬ "Real" = t := fun e => h2 e.symm
  have g3 : ¬ "Logit" = t := fun e => h3 e.symm
  have g4 : ¬ "Gentle" = t := fun e => h4 e.symm
  simp [BoostType, ConstMap.get, ConstMap.add, ConstMap.one, List.find?, List.filter, g1, g2,
    g3, g4]

/-- A code outside 0..3 is not a key of `InvBoostType`. -/
theorem InvBoostType_miss (c : Int) (h : c ∉ [DISCRETE, REAL, LOGIT, GENTLE]) :
    InvBoostType.get c = Except.error Err.valueNotFound := by
  simp only [List.mem_cons, List.mem_singleton, List.not_mem_nil, or_false, not_or] at h
  obtain ⟨h1, h2, h3, h4⟩ := h
  have g1 : ¬ DISCRETE = c := fun e => h1 e.symm
  have g2 : ¬ REAL = c := fun e => h2 e.symm
  have g3 : ¬ LOGIT = c := fun e => h3 e.symm
  have g4 : ¬ GENTLE = c := fun e => h4 e.symm
  have d1 : decide (DISCRETE ≠ REAL) = true := by decide
  have d2 : decide (DISCRETE ≠ LOGIT) = true := by decide
  have d3 : decide (DISCRETE ≠ GENTLE) = true := by decide
  have d4 : decide (REAL ≠ LOGIT) = true := by decide
  have d5 : decide (REAL ≠ GENTLE) = true := by decide
  have d6 : decide (LOGIT ≠ GENTLE) = true := by decide
  simp only [InvBoostType, ConstMap.get, ConstMap.add, ConstMap.one, List.filter, d1, d2, d3, d4,
    d5, d6, List.find?, g1, g2, g3, g4, decide_False]

/-- C8: `BoostType` and `InvBoostType` are mutually inverse bijections between
the four strings Discrete, Real, Logit, Gentle and the four codes 0, 1, 2, 3:
each string is looked up to its code and each code back to its string, the
round trip is the identity in both directions, and the lookup of any other
string or any other code fails. -/
theorem C8_tables_inverse :
    (BoostType.get "Discrete" = Except.ok 0 ∧ BoostType.get "Real" = Except.ok 1 ∧
      BoostType.get "Logit" = Except.ok 2 ∧ BoostType.get "Gentle" = Except.ok 3) ∧
    (InvBoostType.get 0 = Except.ok "Discrete" ∧ InvBoostType.get 1 = Except.ok "Real" ∧
      InvBoostType.get 2 = Except.ok "Logit" ∧ InvBoostType.get 3 = Except.ok "Gentle") ∧
    (∀ t ∈ boostNames, ∃ c, BoostType.get t = Except.ok c ∧ c ∈ [(0 : Int), 1, 2, 3] ∧
      InvBoostType.get c = Except.ok t) ∧
    (∀ c ∈ [(0 : Int), 1, 2, 3], ∃ t, InvBoostType.get c = Except.ok t ∧ t ∈ boostNames ∧
      BoostType.get t = Except.ok c) ∧
    (∀ t : String, t ∉ boostNames → BoostType.get t = Except.error Err.valueNotFound) ∧
    (∀ c : Int, c ∉ [(0 : Int), 1, 2, 3] → InvBoostType.get c = Except.error Err.valueNotFound) := by
  refine ⟨by decide, by decide, ?_, ?_, BoostType_miss, InvBoostType_miss⟩
  · intro t ht
    simp only [boostNames, List.mem_cons, List.mem_singleton, List.not_mem_nil, or_false] at ht
    rcases ht with h | h | h | h <;> subst h
    · exact ⟨0, by decide, by decide, by decide⟩
    · exact ⟨1, by decide, by decide, by decide⟩
    · exact ⟨2, by decide, by decide, by decide⟩
    · exact ⟨3, by decide, by decide, by decide⟩
  · intro c hc
    simp only [List.mem_cons, List.mem_singleton, List.not_mem_nil, or_false] at hc
    rcases hc with h | h | h | h <;> subst h
    · exact ⟨"Discrete", by decide, by decide, by decide⟩
    · exact ⟨"Real", by decide, by decide, by decide⟩
    · exact ⟨"Logit", by decide, by decide, by decide⟩
    · exact ⟨"Gentle", by decide, by decide, by decide⟩

/-- C8 at concrete inputs: `Gentle` goes to 3 and back, `gentle` and 4 are
rejected. -/
theorem C8_witness :
    BoostType.get "Gentle" = Except.ok 3 ∧ InvBoostType.get 3 = Except.ok "Gentle" ∧
      BoostType.get "gentle" = Except.error Err.valueNotFound ∧
      InvBoostType.get 4 = Except.error Err.valueNotFound :=
  ⟨C8_tables_inverse.1.2.2.2, C8_tables_inverse.2.1.2.2.2,
    C8_tables_inverse.2.2.2.2.1 "gentle" (by decide),
    C8_tables_inverse.2.2.2.2.2 4 (by decide)⟩

/-! ## C7, set then get -/

/-- After a setter statement ran on the live handle `h` with an argument that
evaluates, the handle maps to the updated instance. -/
theorem applySetter_live {α : Type} (s : State) (h : Int) (b : Boost) (prop : String) (v : α)
    (f : α → Boost → Boost) :
    (applySetter s h (Ptr.ref b) prop (Except.ok v) f).status = Status.ok ∧
      (applySetter s h (Ptr.ref b) prop (Except.ok v) f).state.obj_ h =
        some (Ptr.ref (f v b)) := by
  simp [applySetter, Ptr.arrow, Outcome.done, State.put]

/-- Each of the four strings is looked up to a code that is looked up back to
the string. -/
theorem tables_roundtrip (t : String) (ht : t ∈ boostNames) :
    ∃ c, BoostType.get t = Except.ok c ∧ InvBoostType.get c = Except.ok t := by
  simp only [boostNames, List.mem_cons, List.mem_singleton, List.not_mem_nil, or_false] at ht
  rcases ht with h | h | h | h <;> subst h
  · exact ⟨0, by decide, by decide⟩
  · exact ⟨1, by decide, by decide⟩
  · exact ⟨2, by decide, by decide⟩
  · exact ⟨3, by decide, by decide⟩

/-- The `set` chain followed by the `get` chain on the same name, for a value
of the type of the property: the getter returns the value. -/
theorem setProp_getProp (s t : State) (h : Int) (b : Boost) (prop : String) (a3 : MxArray)
    (v : Value) (hp : prop ∈ propNames) (hv : propValue prop a3 = some v) :
    (setProp s h (Ptr.ref b) prop a3).status = Status.ok ∧
      ∃ b1, (setProp s h (Ptr.ref b) prop a3).state.obj_ h = some (Ptr.ref b1) ∧
        (getProp t (Ptr.ref b1) prop).status = Status.ok ∧
        (getProp t (Ptr.ref b1) prop).plhs = [v] := by
  simp only [propNames, List.mem_cons, List.mem_singleton, List.not_mem_nil, or_false] at hp
  rcases hp with h1 | h1 | h1 | h1 | h1 | h1 | h1 | h1 | h1 | h1 | h1 | h1 <;> subst h1
  · cases hn : a3.toInt with
    | none => simp [propValue, hn] at hv
    | some n =>
      simp [propValue, hn] at hv
      subst hv
      simp only [setProp, hn, conv]
      simp [applySetter_live, getProp, Ptr.arrow, Outcome.done]
  · cases hn : a3.toInt with
    | none => simp [propValue, hn] at hv
    | some n =>
      simp [propValue, hn] at hv
      subst hv
      simp only [setProp, hn, conv]
      simp [applySetter_live, getProp, Ptr.arrow, Outcome.done]
  · cases hn : a3.toInt with
    | none => simp [propValue, hn] at hv
    | some n =>
      simp [propValue, hn] at hv
      subst hv
      simp only [setProp, hn, conv]
      simp [applySetter_live, getProp, Ptr.arrow, Outcome.done]
  · cases hn : a3.toInt with
    | none => simp [propValue, hn] at hv
    | some n =>
      simp [propValue, hn] at hv
      subst hv
      simp only [setProp, hn, conv]
      simp [applySetter_live, getProp, Ptr.arrow, Outcome.done]
  · cases hn : a3.toMat Depth.dflt with
    | none => simp [propValue, hn] at hv
    | some n =>
      simp [propValue, hn] at hv
      subst hv
      simp only [setProp, hn, conv]
      simp [applySetter_live, getProp, Ptr.arrow, Outcome.done]
  · cases hn : a3.toFloat with
    | none => simp [propValue, hn] at hv
    | some n =>
      simp [propValue, hn] at hv
      subst hv
      simp only [setProp, hn, conv]
      simp [applySetter_live, getProp, Ptr.arrow, Outcome.done]
  · cases hn : a3.toBool with
    | none => simp [propValue, hn] at hv
    | some n =>
      simp [propValue, hn] at hv
      subst hv
      simp only [setProp, hn, conv]
      simp [applySetter_live, getProp, Ptr.arrow, Outcome.done]
  · cases hn : a3.toBool with
    | none => simp [propValue, hn] at hv
    | some n =>
      simp [propValue, hn] at hv
      subst hv
      simp only [setProp, hn, conv]
      simp [applySetter_live, getProp, Ptr.arrow, Outcome.done]
  · cases hn : a3.toBool with
    | none => simp [propValue, hn] at hv
    | some n =>
      simp [propValue, hn] at hv
      subst hv
      simp only [setProp, hn, conv]
      simp [applySetter_live, getProp, Ptr.arrow, Outcome.done]
  · cases hn : a3.toString with
    | none => simp [propValue, hn] at hv
    | some name =>
      simp [propValue, hn] at hv
      obtain ⟨hmem, hvn⟩ := hv
      subst hvn
      obtain ⟨c, hc1, hc2⟩ := tables_roundtrip name hmem
      simp only [setProp, tableArg, hn, conv, hc1]
      simp [applySetter_live, getProp, Ptr.arrow, Outcome.done, hc2]
  · cases hn : a3.toInt with
    | none => simp [propValue, hn] at hv
    | some n =>
      simp [propValue, hn] at hv
      subst hv
      simp only [setProp, hn, conv]
      simp [applySetter_live, getProp, Ptr.arrow, Outcome.done]
  · cases hn : a3.toDouble with
    | none => simp [propValue, hn] at hv
    | some n =>
      simp [propValue, hn] at hv
      subst hv
      simp only [setProp, hn, conv]
      simp [applySetter_live, getProp, Ptr.arrow, Outcome.done]

/-- The `set` chain never rejects one of the twelve names as unrecognised. -/
theorem setProp_known (s : State) (h : Int) (obj : Ptr) (prop : String) (a3 : MxArray)
    (hp : prop ∈ propNames) :
    (setProp s h obj prop a3).status ≠ Status.error (Err.unknownProperty prop) := by
  refine setProp_cases (fun o => o.status ≠ Status.error (Err.unknownProperty prop)) s h obj prop
    a3 (fun α arg f harg => ?_) (fun hn => absurd hp hn)
  cases obj with
  | null => simp [applySetter, Ptr.arrow, Outcome.crash]
  | ref b =>
    cases harg2 : arg with
    | error e =>
      rcases harg e harg2 with h1 | h1 <;> simp [applySetter, Ptr.arrow, Outcome.fail, h1]
    | ok v => simp [applySetter, Ptr.arrow, Outcome.done]

/-- The `get` chain never rejects one of the twelve names as unrecognised. -/
theorem getProp_known (s : State) (obj : Ptr) (prop : String) (hp : prop ∈ propNames) :
    (getProp s obj prop).status ≠ Status.error (Err.unknownProperty prop) := by
  refine getProp_cases (fun o => o.status ≠ Status.error (Err.unknownProperty prop)) s obj prop
    (fun k hk => ?_) (fun hn => absurd hp hn)
  cases obj with
  | null => simp [Ptr.arrow, Outcome.crash]
  | ref b =>
    rcases (hk b).2.2 with h1 | h1
    · simp [Ptr.arrow, h1]
    · simp [Ptr.arrow, h1]

/-- C7: on a live handle, for every property name of the closed set of twelve
and every value `v` of the type of that property carried by the argument,
`set(prop, v)` returns and a following `get(prop)` returns `v` (the instance
being a record with one field per property); `set` and `get` accept exactly
the same names: each of the twelve is accepted by both, and any other name is
rejected by both with the unrecognised-property error. -/
theorem C7_set_then_get (lib : Lib) (s : State) (nlhs : Nat) (h : Int) (b : Boost)
    (a0 a1 a2 a3 c0 c1 c2 : MxArray) (prop : String)
    (hlive : s.obj_ h = some (Ptr.ref b)) (h0 : a0.toInt = some h)
    (h1 : a1.toString = some "set") (h2 : a2.toString = some prop)
    (g0 : c0.toInt = some h) (g1 : c1.toString = some "get") (g2 : c2.toString = some prop)
    (hn : nlhs ≤ 1) :
    (prop ∈ propNames → ∀ v, propValue prop a3 = some v →
      (mexFunction lib s 0 [a0, a1, a2, a3]).status = Status.ok ∧
      (mexFunction lib (mexFunction lib s 0 [a0, a1, a2, a3]).state nlhs [c0, c1, c2]).status =
        Status.ok ∧
      (mexFunction lib (mexFunction lib s 0 [a0, a1, a2, a3]).state nlhs [c0, c1, c2]).plhs =
        [v]) ∧
    (prop ∈ propNames →
      (mexFunction lib s 0 [a0, a1, a2, a3]).status ≠ Status.error (Err.unknownProperty prop) ∧
      (mexFunction lib s nlhs [c0, c1, c2]).status ≠ Status.error (Err.unknownProperty prop)) ∧
    (prop ∉ propNames →
      (mexFunction lib s 0 [a0, a1, a2, a3]).status = Status.error (Err.unknownProperty prop) ∧
      (mexFunction lib s nlhs [c0, c1, c2]).status = Status.error (Err.unknownProperty prop)) := by
  rw [mex_set lib s h b a0 a1 a2 a3 prop hlive h0 h1 h2,
    mex_get lib s nlhs h b c0 c1 c2 prop hlive g0 g1 g2 hn]
  refine ⟨fun hp v hv => ?_, fun hp => ⟨setProp_known s h _ prop a3 hp, getProp_known s _ prop hp⟩,
    fun hp => ?_⟩
  · obtain ⟨hok, b1, hb1, hg⟩ :=
      setProp_getProp s (setProp s h (Ptr.ref b) prop a3).state h b prop a3 v hp hv
    rw [mex_get lib _ nlhs h b1 c0 c1 c2 prop hb1 g0 g1 g2 hn]
    exact ⟨hok, hg⟩
  · rw [setProp_unknown s h _ prop a3 hp, getProp_unknown s _ prop hp]
    exact ⟨rfl, rfl⟩

/-- C7 at concrete inputs on the live handle 1: `BoostType` set to `Gentle`
reads back as `Gentle`, and `MaxDepth` set to 5 reads back as 5. -/
theorem C7_witness :
    (mexFunction sampleLib
        (mexFunction sampleLib oneLive 0
          [mxInt 1, mxStr "set", mxStr "BoostType", mxStr "Gentle"]).state 1
        [mxInt 1, mxStr "get", mxStr "BoostType"]).plhs = [Value.str "Gentle"] ∧
    (mexFunction sampleLib
        (mexFunction sampleLib oneLive 0
          [mxInt 1, mxStr "set", mxStr "MaxDepth", mxInt 5]).state 1
        [mxInt 1, mxStr "get", mxStr "MaxDepth"]).plhs = [Value.int 5] :=
  ⟨((C7_set_then_get sampleLib oneLive 1 1 sampleBoost (mxInt 1) (mxStr "set")
      (mxStr "BoostType") (mxStr "Gentle") (mxInt 1) (mxStr "get") (mxStr "BoostType") "BoostType"
      (by decide) rfl rfl rfl rfl rfl rfl (by decide)).1 (by decide) (Value.str "Gentle")
      (by decide)).2.2,
   ((C7_set_then_get sampleLib oneLive 1 1 sampleBoost (mxInt 1) (mxStr "set")
      (mxStr "MaxDepth") (mxInt 5) (mxInt 1) (mxStr "get") (mxStr "MaxDepth") "MaxDepth"
      (by decide) rfl rfl rfl rfl rfl rfl (by decide)).1 (by decide) (Value.int 5)
      (by decide)).2.2⟩

/-! ## C10, the flag word -/

/-- One turn of the `predict` loop that succeeds is the step of the fold on the
option it reads. -/
theorem predictOption_read {key : String} {v : MxArray} {w w1 : Int}
    (h : predictOption key v w = Except.ok w1) :
    ∃ o, readPredict key v = some o ∧ w1 = FlagOpt.apply w o := by
  unfold predictOption at h
  repeat' split at h
  all_goals first
    | (cases h; done)
    | (rename_i hk
       subst hk
       refine ⟨FlagOpt.flags w1, ?_, rfl⟩
       simp [readPredict, conv_ok h])
    | (cases h
       rename_i hc
       rename_i hk _ _
       subst hk
       have hb := conv_ok hc
       simp [readPredict, hb, FlagOpt.apply, ownBits, written, RAW_OUTPUT, COMPRESSED_INPUT,
         PREPROCESSED_INPUT, PREDICT_SUM, PREDICT_MAX_VOTE])

/-- One turn of the `train` loop that succeeds is the step of the fold on the
option it reads. -/
theorem trainOption_read {key : String} {v : MxArray} {st st1 : DataOptions × Int}
    (h : trainOption key v st = Except.ok st1) :
    ∃ o, readTrain key v = some o ∧ st1.2 = FlagOpt.apply st.2 o := by
  unfold trainOption at h
  repeat' split at h
  all_goals first
    | (cases h; done)
    | (cases h
       rename_i hk
       subst hk
       exact ⟨FlagOpt.other, by simp [readTrain], rfl⟩)
    | (cases h
       rename_i hc
       rename_i hk _ _
       subst hk
       have hb := conv_ok hc
       simp [readTrain, hb, FlagOpt.apply, ownBits, written, RAW_OUTPUT, COMPRESSED_INPUT,
         PREDICT_SUM, PREDICT_MAX_VOTE])

/-- A loop that succeeds is the fold of the options read from its pairs, when
each turn is the step of the fold on a component `flagsOf` of the loop state. -/
theorem optLoop_read {σ : Type} (step : String → MxArray → σ → Except Err σ)
    (read : String → MxArray → Option FlagOpt) (flagsOf : σ → Int)
    (hstep : ∀ key v st st1, step key v st = Except.ok st1 →
      ∃ o, read key v = some o ∧ flagsOf st1 = FlagOpt.apply (flagsOf st) o) :
    ∀ (raw : List MxArray) (st st1 : σ), optLoop step raw st = Except.ok st1 →
      ∃ opts, readOpts read raw = some opts ∧
        flagsOf st1 = opts.foldl FlagOpt.apply (flagsOf st)
  | [], st, st1, h => by
    simp only [optLoop, Except.ok.injEq] at h
    subst h
    exact ⟨[], rfl, rfl⟩
  | [_], st, st1, h => by
    simp only [optLoop, Except.ok.injEq] at h
    subst h
    exact ⟨[], rfl, rfl⟩
  | k :: v :: rest, st, st1, h => by
    unfold optLoop at h
    cases hk : conv k.toString with
    | error e => rw [hk] at h; cases h
    | ok key =>
      rw [hk] at h
      dsimp only at h
      cases hs : step key v st with
      | error e => rw [hs] at h; cases h
      | ok st2 =>
        rw [hs] at h
        dsimp only at h
        obtain ⟨o, ho, hf⟩ := hstep key v st st2 hs
        obtain ⟨opts, hopts, hfold⟩ := optLoop_read step read flagsOf hstep rest st2 st1 h
        refine ⟨o :: opts, ?_, ?_⟩
        · simp only [readOpts, conv_ok hk, ho, hopts]
        · rw [hfold, hf, List.foldl_cons]

/-- Writing `b` into each bit of a list: bit `i` is `b` when it is in the list,
and is unchanged otherwise. -/
theorem foldl_UPDATE_FLAG_testBit (b : Bool) (i : Nat) :
    ∀ (bits : List Nat) (w : Int),
      (bits.foldl (fun acc j => UPDATE_FLAG acc b (2 ^ j)) w).testBit i =
        if i ∈ bits then b else w.testBit i
  | [], w => by simp
  | j :: rest, w => by
    rw [List.foldl_cons, foldl_UPDATE_FLAG_testBit b i rest, testBit_UPDATE_FLAG]
    by_cases h1 : i ∈ rest
    · simp [h1]
    · by_cases h2 : i = j
      · simp [h2]
      · simp [h1, h2]

/-- What one option does to bit `i`: the bit it decides, or the bit as it
was. -/
theorem apply_testBit (w : Int) (o : FlagOpt) (i : Nat) :
    (FlagOpt.apply w o).testBit i =
      match o.decides i with
      | some b => b
      | none => w.testBit i := by
  cases o with
  | flags n => rfl
  | other => rfl
  | toggle key b =>
    simp only [FlagOpt.apply, FlagOpt.decides]
    rw [foldl_UPDATE_FLAG_testBit]
    split <;> rfl

/-- Bit `i` after the fold from `w`: the decision of the last option that
touches it, or the bit of `w` when none does. -/
theorem foldl_testBit (i : Nat) :
    ∀ (opts : List FlagOpt) (w : Int),
      (opts.foldl FlagOpt.apply w).testBit i =
        match lastDecision i opts with
        | some b => b
        | none => w.testBit i
  | [], w => rfl
  | o :: rest, w => by
    rw [List.foldl_cons, foldl_testBit i rest (FlagOpt.apply w o)]
    simp only [lastDecision]
    cases lastDecision i rest with
    | some b => rfl
    | none => exact apply_testBit w o i

/-! ## Which branch calls `train` and `predict` -/

/-- A call that is neither `train` nor `predict`. -/
theorem ne_model_of_eq {c c0 : Call} (hc : c = c0)
    (h0 : (∀ d f, c0 ≠ Call.train d f) ∧ (∀ m f, c0 ≠ Call.predict m f)) :
    (∀ d f, c ≠ Call.train d f) ∧ (∀ m f, c ≠ Call.predict m f) := by
  rw [hc]; exact h0

theorem arrow_calls (P : Call → Prop) (s : State) (obj : Ptr) (k : Boost → Outcome)
    (h : ∀ b, ∀ c ∈ (k b).calls, P c) : ∀ c ∈ (obj.arrow s k).calls, P c := by
  cases obj with
  | null => intro c hc; simp [Ptr.arrow, Outcome.crash] at hc
  | ref b => exact h b

theorem fail_calls (P : Call → Prop) (e : Err) (s : State) :
    ∀ c ∈ (Outcome.fail e s []).calls, P c := by
  intro c hc
  simp [Outcome.fail] at hc

theorem other_doDelete (P : Call → Prop) (s : State) (id : Int) (nlhs nrhs : Nat) :
    ∀ c ∈ (doDelete s id nlhs nrhs).calls, P c := by
  rw [calls_doDelete]
  intro c hc
  cases hc

theorem other_doLoad (P : Call → Prop) (lib : Lib) (s : State) (id : Int) (nlhs nrhs : Nat)
    (args : List MxArray) : ∀ c ∈ (doLoad lib s id nlhs nrhs args).calls, P c := by
  rw [calls_doLoad]
  intro c hc
  cases hc

theorem other_doClear (lib : Lib) (s : State) (id : Int) (obj : Ptr) (nlhs nrhs : Nat) :
    ∀ c ∈ (doClear lib s id obj nlhs nrhs).calls,
      (∀ d f, c ≠ Call.train d f) ∧ (∀ m f, c ≠ Call.predict m f) := by
  unfold doClear
  split
  · exact fail_calls _ _ _
  · apply arrow_calls
    intro b c hc
    simp only [Outcome.done, List.mem_singleton] at hc
    subst hc
    simp

theorem other_doSave (lib : Lib) (s : State) (obj : Ptr) (nlhs nrhs : Nat) (args : List MxArray) :
    ∀ c ∈ (doSave lib s obj nlhs nrhs args).calls,
      (∀ d f, c ≠ Call.train d f) ∧ (∀ m f, c ≠ Call.predict m f) := by
  unfold doSave
  repeat' split
  all_goals first
    | exact fail_calls _ _ _
    | (apply arrow_calls
       intro b c hc
       split at hc <;>
         simp only [Outcome.done, Outcome.fail, List.mem_cons, List.mem_singleton,
           List.not_mem_nil, or_false] at hc <;>
         rcases hc with hc | hc <;> subst hc <;> simp)
    | (apply arrow_calls
       intro b c hc
       split at hc <;>
         simp only [Outcome.done, Outcome.fail, List.mem_singleton] at hc <;>
         subst hc <;> simp)

theorem other_doRead (s : State) (obj : Ptr) (nlhs nrhs : Nat) (c0 : Call) (m : Boost → Value)
    (h0 : (∀ d f, c0 ≠ Call.train d f) ∧ (∀ m f, c0 ≠ Call.predict m f)) :
    ∀ c ∈ (doRead s obj nlhs nrhs c0 m).calls,
      (∀ d f, c ≠ Call.train d f) ∧ (∀ m f, c ≠ Call.predict m f) := by
  unfold doRead
  split
  · exact fail_calls _ _ _
  · apply arrow_calls
    intro b c hc
    simp only [Outcome.done, List.mem_singleton] at hc
    exact ne_model_of_eq hc h0

theorem other_doCalcError (lib : Lib) (s : State) (obj : Ptr) (nlhs nrhs : Nat)
    (args : List MxArray) :
    ∀ c ∈ (doCalcError lib s obj nlhs nrhs args).calls,
      (∀ d f, c ≠ Call.train d f) ∧ (∀ m f, c ≠ Call.predict m f) := by
  unfold doCalcError
  repeat' split
  all_goals first
    | exact fail_calls _ _ _
    | (apply arrow_calls
       intro b c hc
       split at hc <;>
         simp only [Outcome.done, Outcome.fail, List.mem_singleton] at hc <;>
         subst hc <;> simp)

theorem other_doGet (s : State) (obj : Ptr) (nlhs nrhs : Nat) (args : List MxArray) :
    ∀ c ∈ (doGet s obj nlhs nrhs args).calls,
      (∀ d f, c ≠ Call.train d f) ∧ (∀ m f, c ≠ Call.predict m f) := by
  unfold doGet
  repeat' split
  all_goals first
    | exact fail_calls _ _ _
    | (refine getProp_cases (fun o => ∀ c ∈ o.calls,
          (∀ d f, c ≠ Call.train d f) ∧ (∀ m f, c ≠ Call.predict m f)) _ _ _
          (fun k hk => ?_) (fun _ => fail_calls _ _ _)
       apply arrow_calls
       intro b c hc
       rw [(hk b).2.1, List.mem_singleton] at hc
       subst hc
       simp)

theorem other_doSet (s : State) (id : Int) (obj : Ptr) (nlhs nrhs : Nat) (args : List MxArray) :
    ∀ c ∈ (doSet s id obj nlhs nrhs args).calls,
      (∀ d f, c ≠ Call.train d f) ∧ (∀ m f, c ≠ Call.predict m f) := by
  unfold doSet
  repeat' split
  all_goals first
    | exact fail_calls _ _ _
    | (refine setProp_cases (fun o => ∀ c ∈ o.calls,
          (∀ d f, c ≠ Call.train d f) ∧ (∀ m f, c ≠ Call.predict m f)) _ _ _ _ _
          (fun α arg f _ => ?_) (fun _ => fail_calls _ _ _)
       unfold applySetter
       apply arrow_calls
       intro b c hc
       cases arg with
       | error e => simp [Outcome.fail] at hc
       | ok v =>
         simp only [Outcome.done, List.mem_singleton] at hc
         subst hc
         simp)

/-- Every call of the `train` branch is `train` on the flag word its option
loop computed from 0. -/
theorem calls_doTrain (lib : Lib) (s : State) (id : Int) (obj : Ptr) (nlhs nrhs : Nat)
    (args : List MxArray) :
    ∀ c ∈ (doTrain lib s id obj nlhs nrhs args).calls,
      ∃ data f d, c = Call.train data f ∧ trainOpts (args.drop 2) ([], 0) = Except.ok (d, f) := by
  unfold doTrain
  repeat' split
  all_goals first
    | exact fail_calls _ _ _
    | (apply arrow_calls
       intro b c hc
       split at hc <;>
         simp only [Outcome.done, Outcome.fail, List.mem_singleton] at hc <;>
         exact ⟨_, _, _, hc, by assumption⟩)

/-- Every call of the `predict` branch is `predict` on the flag word its option
loop computed from 0. -/
theorem calls_doPredict (lib : Lib) (s : State) (obj : Ptr) (nlhs nrhs : Nat)
    (args : List MxArray) :
    ∀ c ∈ (doPredict lib s obj nlhs nrhs args).calls,
      ∃ m f, c = Call.predict m f ∧ predictOpts (args.drop 1) 0 = Except.ok f := by
  unfold doPredict
  repeat' split
  all_goals first
    | exact fail_calls _ _ _
    | (apply arrow_calls
       intro b c hc
       split at hc <;>
         simp only [Outcome.done, Outcome.fail, List.mem_singleton] at hc <;>
         exact ⟨_, _, hc, by assumption⟩)

/-- A `train` call of the switch carries the flag word of the `train` loop; a
`predict` call the flag word of the `predict` loop. -/
theorem calls_dispatch (lib : Lib) (s : State) (id : Int) (obj : Ptr) (method : String)
    (nlhs nrhs : Nat) (args : List MxArray) :
    ∀ c ∈ (dispatch lib s id obj method nlhs nrhs args).calls,
      (∀ data f, c = Call.train data f →
        ∃ d, trainOpts (args.drop 2) ([], 0) = Except.ok (d, f)) ∧
      (∀ m f, c = Call.predict m f → predictOpts (args.drop 1) 0 = Except.ok f) := by
  have other : ∀ o : Outcome, (∀ c ∈ o.calls,
      (∀ d f, c ≠ Call.train d f) ∧ (∀ m f, c ≠ Call.predict m f)) →
      ∀ c ∈ o.calls, (∀ data f, c = Call.train data f →
        ∃ d, trainOpts (args.drop 2) ([], 0) = Except.ok (d, f)) ∧
      (∀ m f, c = Call.predict m f → predictOpts (args.drop 1) 0 = Except.ok f) :=
    fun o ho c hc => ⟨fun data f e => absurd e ((ho c hc).1 data f),
      fun m f e => absurd e ((ho c hc).2 m f)⟩
  refine dispatch_cases (fun o => ∀ c ∈ o.calls,
      (∀ data f, c = Call.train data f →
        ∃ d, trainOpts (args.drop 2) ([], 0) = Except.ok (d, f)) ∧
      (∀ m f, c = Call.predict m f → predictOpts (args.drop 1) 0 = Except.ok f))
    lib s id obj method nlhs nrhs args
    (fun _ => other_doDelete _ _ _ _ _) (other _ (other_doClear _ _ _ _ _ _))
    (fun _ => other_doLoad _ _ _ _ _ _ _) (other _ (other_doSave _ _ _ _ _ _))
    (fun c0 m hc0 => other _ (other_doRead _ _ _ _ c0 m ?_))
    ?_ (other _ (other_doCalcError _ _ _ _ _ _)) ?_
    (other _ (other_doGet _ _ _ _ _)) (other _ (other_doSet _ _ _ _ _ _))
    (fail_calls _ _ _)
  · simp only [List.mem_cons, List.mem_singleton, List.not_mem_nil, or_false] at hc0
    rcases hc0 with h | h | h | h | h | h | h | h | h <;> subst h <;> simp
  · intro c hc
    obtain ⟨data, f, d, hcd, hl⟩ := calls_doTrain lib s id obj nlhs nrhs args c hc
    subst hcd
    refine ⟨fun data1 f1 e => ?_, fun m f1 e => by cases e⟩
    cases e
    exact ⟨d, hl⟩
  · intro c hc
    obtain ⟨m, f, hcd, hl⟩ := calls_doPredict lib s obj nlhs nrhs args c hc
    subst hcd
    refine ⟨fun data1 f1 e => (by cases e), fun m1 f1 e => ?_⟩
    cases e
    exact hl

/-- The same, for the entry point: `args` are the arguments from `rhs[2]` on. -/
theorem calls_mexFunction (lib : Lib) (s : State) (nlhs : Nat) (rhs : List MxArray) :
    ∀ c ∈ (mexFunction lib s nlhs rhs).calls,
      (∀ data f, c = Call.train data f →
        ∃ d, trainOpts (rhs.drop 4) ([], 0) = Except.ok (d, f)) ∧
      (∀ m f, c = Call.predict m f → predictOpts (rhs.drop 3) 0 = Except.ok f) := by
  by_cases hex : ∃ a0 a1 args id method, rhs = a0 :: a1 :: args ∧ nlhs ≤ 2 ∧
      a0.toInt = some id ∧ a1.toString = some method
  · obtain ⟨a0, a1, args, id, method, hr, hn, h0, h1⟩ := hex
    rw [hr, mexFunction_eq lib s nlhs a0 a1 args id method hn h0 h1]
    by_cases hm : method = "new"
    · rw [if_pos hm]
      intro c hc
      unfold doNew at hc
      split at hc <;> simp [Outcome.fail, Outcome.done] at hc
    · rw [if_neg hm]
      exact calls_dispatch lib _ id _ method nlhs _ args
  · intro c hc
    rw [mexFunction_early_calls lib s nlhs rhs
      (fun a0 a1 args id method hr hn h0 h1 =>
        hex ⟨a0, a1, args, id, method, hr, hn, h0, h1⟩)] at hc
    cases hc

/-- An option read from a `predict` pair is processed by the loop body as the
step of the fold. -/
theorem predictOption_of_read {key : String} {v : MxArray} {o : FlagOpt} (w : Int)
    (h : readPredict key v = some o) : predictOption key v w = Except.ok (FlagOpt.apply w o) := by
  unfold readPredict at h
  by_cases h1 : key = "Flags"
  · rw [if_pos h1] at h
    subst h1
    cases hv : v.toInt with
    | none => simp [hv] at h
    | some n =>
      simp only [hv, Option.map_some', Option.some.injEq] at h
      subst h
      simp [predictOption, conv, hv, FlagOpt.apply]
  · rw [if_neg h1] at h
    split at h
    · rename_i hmem
      cases hv : v.toBool with
      | none => simp [hv] at h
      | some b =>
        simp only [hv, Option.map_some', Option.some.injEq] at h
        subst h
        simp only [List.mem_cons, List.mem_singleton, List.not_mem_nil, or_false] at hmem
        rcases hmem with hk | hk | hk | hk | hk | hk <;> subst hk <;>
          simp [predictOption, conv, hv, FlagOpt.apply, ownBits, written, RAW_OUTPUT,
            COMPRESSED_INPUT, PREPROCESSED_INPUT, PREDICT_SUM, PREDICT_MAX_VOTE]
    · cases h

/-- An option read from a `train` pair is processed by the loop body as the
step of the fold on the flag word. -/
theorem trainOption_of_read {key : String} {v : MxArray} {o : FlagOpt} (st : DataOptions × Int)
    (h : readTrain key v = some o) :
    ∃ d, trainOption key v st = Except.ok (d, FlagOpt.apply st.2 o) := by
  unfold readTrain at h
  by_cases h0 : key = "Data"
  · rw [if_pos h0] at h
    subst h0
    cases h
    exact ⟨v.toVector, by simp [trainOption, FlagOpt.apply]⟩
  rw [if_neg h0] at h
  by_cases h1 : key = "Flags"
  · rw [if_pos h1] at h
    subst h1
    cases hv : v.toInt with
    | none => simp [hv] at h
    | some n =>
      simp only [hv, Option.map_some', Option.some.injEq] at h
      subst h
      exact ⟨st.1, by simp [trainOption, conv, hv, FlagOpt.apply]⟩
  · rw [if_neg h1] at h
    split at h
    · rename_i hmem
      cases hv : v.toBool with
      | none => simp [hv] at h
      | some b =>
        simp only [hv, Option.map_some', Option.some.injEq] at h
        subst h
        refine ⟨st.1, ?_⟩
        simp only [List.mem_cons, List.mem_singleton, List.not_mem_nil, or_false] at hmem
        rcases hmem with hk | hk | hk | hk <;> subst hk <;>
          simp [trainOption, conv, hv, FlagOpt.apply, ownBits, written, RAW_OUTPUT,
            COMPRESSED_INPUT, PREDICT_SUM, PREDICT_MAX_VOTE]
    · cases h

/-- A list of pairs that reads as options is processed by the loop without
error, and the loop computes the fold of the options. -/
theorem optLoop_of_read {σ : Type} (step : String → MxArray → σ → Except Err σ)
    (read : String → MxArray → Option FlagOpt) (flagsOf : σ → Int)
    (hstep : ∀ key v o st, read key v = some o →
      ∃ st1, step key v st = Except.ok st1 ∧ flagsOf st1 = FlagOpt.apply (flagsOf st) o) :
    ∀ (raw : List MxArray) (opts : List FlagOpt) (st : σ), readOpts read raw = some opts →
      ∃ st1, optLoop step raw st = Except.ok st1 ∧
        flagsOf st1 = opts.foldl FlagOpt.apply (flagsOf st)
  | [], opts, st, h => by
    simp only [readOpts, Option.some.injEq] at h
    subst h
    exact ⟨st, rfl, rfl⟩
  | [_], opts, st, h => by
    simp only [readOpts, Option.some.injEq] at h
    subst h
    exact ⟨st, rfl, rfl⟩
  | k :: v :: rest, opts, st, h => by
    unfold readOpts at h
    cases hk : k.toString with
    | none => rw [hk] at h; cases h
    | some key =>
      rw [hk] at h
      dsimp only at h
      cases hr : read key v with
      | none => rw [hr] at h; cases h
      | some o =>
        rw [hr] at h
        dsimp only at h
        cases hrest : readOpts read rest with
        | none => rw [hrest] at h; cases h
        | some os =>
          rw [hrest] at h
          cases h
          obtain ⟨st1, hs, hf⟩ := hstep key v o st hr
          obtain ⟨st2, hl, hf2⟩ := optLoop_of_read step read flagsOf hstep rest os st1 hrest
          refine ⟨st2, ?_, ?_⟩
          · simp only [optLoop, hk, conv, hs, hl]
          · rw [hf2, hf, List.foldl_cons]

/-- A well-formed `predict` request on a live handle whose options all read and
whose samples convert calls `predict` once, on the fold of the options. -/
theorem predict_calls (lib : Lib) (s : State) (nlhs : Nat) (h : Int) (b : Boost)
    (a0 a1 a2 : MxArray) (raw : List MxArray) (opts : List FlagOpt) (m : Mat)
    (hlive : s.obj_ h = some (Ptr.ref b)) (h0 : a0.toInt = some h)
    (h1 : a1.toString = some "predict") (hn : nlhs ≤ 2) (hp : raw.length % 2 = 0)
    (hr : readOpts readPredict raw = some opts) (hm : a2.toMat Depth.CV_32F = some m) :
    (mexFunction lib s nlhs (a0 :: a1 :: a2 :: raw)).calls = [Call.predict m (foldFlags opts)] := by
  obtain ⟨f, hl, hf⟩ := optLoop_of_read predictOption readPredict id
    (fun key v o st hro => ⟨_, predictOption_of_read st hro, rfl⟩) raw opts 0 hr
  have hd : ("predict" : String) ≠ "new" := by decide
  rw [mexFunction_eq lib s nlhs a0 a1 _ h "predict" hn h0 h1, if_neg hd,
    index_live s h _ hlive, dispatch_predict]
  unfold doPredict
  have hc : decide ((a2 :: raw).length + 2 ≥ 3 ∧
      ((a2 :: raw).length + 2) % 2 = 1 ∧ nlhs ≤ 2) = true := by
    simp only [List.length_cons, decide_eq_true_eq]
    omega
  rw [hc, nargchk_true]
  dsimp only
  have hl2 : predictOpts raw 0 = Except.ok (foldFlags opts) := by
    simp only [id] at hf
    rw [foldFlags, ← hf]; exact hl
  rw [hl2]
  simp only [hm, conv, Ptr.arrow]
  cases lift (lib.predict b m (foldFlags opts)) <;> rfl

/-- A well-formed `train` request on a live handle whose options all read and
whose dataset is built calls `train` once, on the fold of the options. -/
theorem train_calls (lib : Lib) (s : State) (nlhs : Nat) (h : Int) (b : Boost)
    (a0 a1 a2 a3 : MxArray) (raw : List MxArray) (opts : List FlagOpt)
    (hlive : s.obj_ h = some (Ptr.ref b)) (h0 : a0.toInt = some h)
    (h1 : a1.toString = some "train") (hn : nlhs ≤ 1) (hp : raw.length % 2 = 0)
    (hr : readOpts readTrain raw = some opts) :
    ∃ d, trainOpts raw ([], 0) = Except.ok (d, foldFlags opts) ∧
      ∀ data, makeData lib a2 a3 d = Except.ok data →
        (mexFunction lib s nlhs (a0 :: a1 :: a2 :: a3 :: raw)).calls =
          [Call.train data (foldFlags opts)] := by
  obtain ⟨st1, hl, hf⟩ := optLoop_of_read trainOption readTrain (fun st => st.2)
    (fun key v o st hro => by
      obtain ⟨d, hd⟩ := trainOption_of_read st hro
      exact ⟨_, hd, rfl⟩) raw opts ([], 0) hr
  obtain ⟨d, f⟩ := st1
  simp only at hf
  have hl2 : trainOpts raw ([], 0) = Except.ok (d, foldFlags opts) := by
    rw [foldFlags, ← hf]; exact hl
  refine ⟨d, hl2, fun data hdata => ?_⟩
  have hd : ("train" : String) ≠ "new" := by decide
  rw [mexFunction_eq lib s nlhs a0 a1 _ h "train" (by omega) h0 h1, if_neg hd,
    index_live s h _ hlive, dispatch_train]
  unfold doTrain
  have hc : decide ((a2 :: a3 :: raw).length + 2 ≥ 4 ∧
      ((a2 :: a3 :: raw).length + 2) % 2 = 0 ∧ nlhs ≤ 1) = true := by
    simp only [List.length_cons, decide_eq_true_eq]
    omega
  rw [hc, nargchk_true]
  dsimp only
  rw [hl2]
  dsimp only
  rw [hdata]
  simp only [Ptr.arrow]
  cases (lib.train b data (foldFlags opts)).1 <;> rfl

/-- C10: in `train` and `predict` the flag word passed to the model is the
left-to-right fold, from 0, of the options read from the option pairs, whenever
the model is called, and it is called on that word when the handle is live, the
arity well formed and the arguments convert; for every option list and every
bit, the bit of the fold is the decision of the last option that touches it (0
when none does): a boolean option writes its own bit or bits and leaves the
others unchanged, a `Flags` option replaces the whole word and discards the
effect of every earlier option, and with no option the word is 0. -/
theorem C10_flag_word :
    (∀ (lib : Lib) (s : State) (nlhs : Nat) (rhs : List MxArray) (data : TrainData) (f : Int),
      Call.train data f ∈ (mexFunction lib s nlhs rhs).calls →
      ∃ opts, readOpts readTrain (rhs.drop 4) = some opts ∧ f = foldFlags opts) ∧
    (∀ (lib : Lib) (s : State) (nlhs : Nat) (rhs : List MxArray) (m : Mat) (f : Int),
      Call.predict m f ∈ (mexFunction lib s nlhs rhs).calls →
      ∃ opts, readOpts readPredict (rhs.drop 3) = some opts ∧ f = foldFlags opts) ∧
    (∀ (lib : Lib) (s : State) (nlhs : Nat) (h : Int) (b : Boost) (a0 a1 a2 a3 : MxArray)
      (raw : List MxArray) (opts : List FlagOpt),
      s.obj_ h = some (Ptr.ref b) → a0.toInt = some h → a1.toString = some "train" → nlhs ≤ 1 →
      raw.length % 2 = 0 → readOpts readTrain raw = some opts →
      ∃ d, trainOpts raw ([], 0) = Except.ok (d, foldFlags opts) ∧
        ∀ data, makeData lib a2 a3 d = Except.ok data →
          (mexFunction lib s nlhs (a0 :: a1 :: a2 :: a3 :: raw)).calls =
            [Call.train data (foldFlags opts)]) ∧
    (∀ (lib : Lib) (s : State) (nlhs : Nat) (h : Int) (b : Boost) (a0 a1 a2 : MxArray)
      (raw : List MxArray) (opts : List FlagOpt) (m : Mat),
      s.obj_ h = some (Ptr.ref b) → a0.toInt = some h → a1.toString = some "predict" →
      nlhs ≤ 2 → raw.length % 2 = 0 → readOpts readPredict raw = some opts →
      a2.toMat Depth.CV_32F = some m →
      (mexFunction lib s nlhs (a0 :: a1 :: a2 :: raw)).calls =
        [Call.predict m (foldFlags opts)]) ∧
    (∀ (opts : List FlagOpt) (i : Nat),
      (foldFlags opts).testBit i = (lastDecision i opts).getD false) ∧
    (∀ (w : Int) (key : String) (b : Bool) (i : Nat),
      (FlagOpt.apply w (FlagOpt.toggle key b)).testBit i =
        if i ∈ ownBits key then written key b else w.testBit i) ∧
    (∀ (pre post : List FlagOpt) (n : Int),
      foldFlags (pre ++ FlagOpt.flags n :: post) = foldFlags (FlagOpt.flags n :: post)) ∧
    foldFlags [] = 0 := by
  refine ⟨?_, ?_, ?_, ?_, ?_, ?_, ?_, rfl⟩
  · intro lib s nlhs rhs data f hc
    obtain ⟨d, hl⟩ := (calls_mexFunction lib s nlhs rhs _ hc).1 data f rfl
    obtain ⟨opts, hr, hf⟩ := optLoop_read trainOption readTrain (fun st => st.2)
      (fun key v st st1 hs => trainOption_read hs) _ _ _ hl
    exact ⟨opts, hr, hf⟩
  · intro lib s nlhs rhs m f hc
    have hl := (calls_mexFunction lib s nlhs rhs _ hc).2 m f rfl
    obtain ⟨opts, hr, hf⟩ := optLoop_read predictOption readPredict id
      (fun key v st st1 hs => predictOption_read hs) _ _ _ hl
    exact ⟨opts, hr, hf⟩
  · intro lib s nlhs h b a0 a1 a2 a3 raw opts hlive h0 h1 hn hp hr
    exact train_calls lib s nlhs h b a0 a1 a2 a3 raw opts hlive h0 h1 hn hp hr
  · intro lib s nlhs h b a0 a1 a2 raw opts m hlive h0 h1 hn hp hr hm
    exact predict_calls lib s nlhs h b a0 a1 a2 raw opts m hlive h0 h1 hn hp hr hm
  · intro opts i
    rw [foldFlags, foldl_testBit i opts 0]
    cases lastDecision i opts with
    | some b => rfl
    | none => exact Nat.zero_testBit i
  · intro w key b i
    rw [apply_testBit]
    simp only [FlagOpt.decides]
    split <;> simp_all
  · intro pre post n
    simp [foldFlags, List.foldl_append, FlagOpt.apply]

/-- C10 at a concrete input: on the live handle 1, `predict` with the options
`RawOutput = true`, `Flags = 4`, `PredictAuto = false` calls the model on
772: `Flags` discarded the earlier `RawOutput`, `PredictAuto = false` then set
bits 8 and 9. -/
theorem C10_witness :
    (mexFunction sampleLib oneLive 1
        [mxInt 1, mxStr "predict", mxMat ⟨[[1]]⟩, mxStr "RawOutput", mxBool true,
          mxStr "Flags", mxInt 4, mxStr "PredictAuto", mxBool false]).calls =
      [Call.predict ⟨[[1]]⟩
        (foldFlags [FlagOpt.toggle "RawOutput" true, FlagOpt.flags 4,
          FlagOpt.toggle "PredictAuto" false])] ∧
    foldFlags [FlagOpt.toggle "RawOutput" true, FlagOpt.flags 4,
        FlagOpt.toggle "PredictAuto" false] = 772 :=
  ⟨C10_flag_word.2.2.2.1 sampleLib oneLive 1 1 sampleBoost (mxInt 1) (mxStr "predict")
      (mxMat ⟨[[1]]⟩)
      [mxStr "RawOutput", mxBool true, mxStr "Flags", mxInt 4, mxStr "PredictAuto", mxBool false]
      [FlagOpt.toggle "RawOutput" true, FlagOpt.flags 4, FlagOpt.toggle "PredictAuto" false]
      ⟨[[1]]⟩ (by decide) rfl rfl (by decide) (by decide) (by decide) rfl,
    by decide⟩

end Boost_
